import Mathlib

/-!
Shallow embedding of the deep-frying simulation core (oil thermodynamics,
potato fry model, bubble particles, and the per-frame orchestrator loop),
together with proofs of the specified properties.  Machine floats are
modelled as real numbers; calls to the uniform random source are modelled
as explicitly injected draws in [0,1).
-/

noncomputable section

namespace DeepFry

/-- C++ ofClamp: value clamped to the interval from lo to hi. -/
def ofClamp (v lo hi : ℝ) : ℝ :=
  if v < lo then lo else if v > hi then hi else v

/-- C++ ofLerp: linear interpolation from a to b by amount t. -/
def ofLerp (a b t : ℝ) : ℝ := a + (b - a) * t

/-- C++ ofMap with optional clamping of the output to the target range
(handling a reversed output range the way openFrameworks does). -/
def ofMap (v inMin inMax outMin outMax : ℝ) (doClamp : Bool) : ℝ :=
  let r := (v - inMin) / (inMax - inMin) * (outMax - outMin) + outMin
  if doClamp then
    if outMax < outMin then
      if r < outMax then outMax else if r > outMin then outMin else r
    else
      if r < outMin then outMin else if r > outMax then outMax else r
  else r

/-- ofRandom(a, b) modelled with an injected uniform draw u taken from [0,1). -/
def ofRandomU (a b u : ℝ) : ℝ := a + u * (b - a)

/-- A uniform draw is valid when it lies in [0,1). -/
def unitI (u : ℝ) : Prop := 0 ≤ u ∧ u < 1

/-- C-style cast from float to int: truncation toward zero. -/
def cint (x : ℝ) : ℤ := if x < 0 then -(Int.floor (-x)) else Int.floor x

/-- 2D vector (ofVec2f). -/
structure Vec2 where
  x : ℝ
  y : ℝ

/-- ofColor with real-valued channels. -/
structure OfColor where
  r : ℝ
  g : ℝ
  b : ℝ
  a : ℝ

/-- ofColor::getLerped: componentwise linear interpolation. -/
def OfColor.getLerped (c d : OfColor) (t : ℝ) : OfColor :=
  ⟨ofLerp c.r d.r t, ofLerp c.g d.g t, ofLerp c.b d.b t, ofLerp c.a d.a t⟩

/-- The fry (Potato) state. -/
structure Potato where
  position : Vec2
  size : Vec2
  velocity : Vec2
  moistureContent : ℝ
  temperature : ℝ
  cookedness : ℝ
  crustThickness : ℝ
  density : ℝ
  timeInOil : ℝ
  isInOil : Bool
  vigorousBubblingPhase : Bool
  currentColor : OfColor

/-- Potato constructor: raw-potato initial state. -/
def Potato.init (startPos sz : Vec2) : Potato :=
  { position := startPos, size := sz, velocity := ⟨0, 0⟩,
    moistureContent := 0.79, temperature := 20, cookedness := 0,
    crustThickness := 0, density := 1.08, timeInOil := 0,
    isInOil := false, vigorousBubblingPhase := false,
    currentColor := ⟨230, 215, 170, 255⟩ }

/-- Potato::getCookingColor: raw-to-golden color ramp driven by cookedness. -/
def Potato.getCookingColor (p : Potato) : OfColor :=
  let raw : OfColor := ⟨235, 220, 175, 255⟩
  let veryLight : OfColor := ⟨245, 230, 160, 255⟩
  let light : OfColor := ⟨245, 225, 140, 255⟩
  let medium : OfColor := ⟨240, 205, 120, 255⟩
  let golden : OfColor := ⟨220, 180, 100, 255⟩
  let darkGolden : OfColor := ⟨190, 150, 80, 255⟩
  if p.cookedness < 0.25 then raw.getLerped veryLight (p.cookedness / 0.25)
  else if p.cookedness < 0.5 then veryLight.getLerped light ((p.cookedness - 0.25) / 0.25)
  else if p.cookedness < 0.65 then light.getLerped medium ((p.cookedness - 0.5) / 0.15)
  else if p.cookedness < 0.85 then medium.getLerped golden ((p.cookedness - 0.65) / 0.2)
  else golden.getLerped darkGolden ((p.cookedness - 0.85) / 0.15)

/-- Potato::getEffectiveHeatTransferCoefficient: base coefficient 0.025,
boosted during the vigorous bubbling phase and damped by crust. -/
def Potato.getEffectiveHeatTransferCoefficient (p : Potato) : ℝ :=
  let baseCoeff : ℝ := 0.025
  let boosted :=
    if p.vigorousBubblingPhase then baseCoeff * (1 + 4 * Real.exp (-p.timeInOil / 20))
    else baseCoeff
  boosted * (1 - 0.5 * p.crustThickness)

/-- Potato::getBubbleGenerationFactor. -/
def Potato.getBubbleGenerationFactor (p : Potato) (oilTemp : ℝ) : ℝ :=
  if p.isInOil = false then 0
  else if p.moistureContent < 0.01 then 0
  else
    let tempDiff := oilTemp - p.temperature
    if tempDiff < 5 then 0
    else
      let timeBasedFactor :=
        if p.timeInOil < 20 then ofMap (Real.exp (-p.timeInOil / 8)) 0 1 0 1 true
        else if p.timeInOil < 90 then ofMap p.timeInOil 20 90 1 0 true
        else 0.02
      let moistureFactor :=
        if p.moistureContent > 0.1 then 1
        else if p.moistureContent > 0.01 then
          (p.moistureContent / 0.1) * (p.moistureContent / 0.1)
        else 0.01
      let tempDiffFactor := ofMap tempDiff 5 100 0.1 1 true
      let baseFactor :=
        moistureFactor * tempDiffFactor * timeBasedFactor * (1 - 0.5 * p.crustThickness)
      if p.moistureContent > 0.01 then max baseFactor 0.01 else baseFactor

/-- Potato::update: one integration step of the fry's thermodynamic and
kinematic state against the ambient oil. -/
def Potato.update (p : Potato) (dt oilTemp oilSurfaceY oilDensity basketBottomY : ℝ) :
    Potato :=
  if p.position.y > oilSurfaceY then
    let t0 := if p.isInOil then p.timeInOil else 0
    let timeInOil := t0 + dt
    let vig : Bool := decide (timeInOil < 20)
    let moistureContent :=
      if p.temperature > 100 then
        let evaporationRateBase :=
          if timeInOil < 20 then 0.02 * dt * (p.temperature - 100) / 75
          else 0.015 * dt * (p.temperature - 100) / 75
        ofClamp (p.moistureContent - evaporationRateBase * (1 - 0.3 * p.crustThickness))
          0.01 0.79
      else p.moistureContent
    let density := ofClamp (1.08 - (1.08 - 0.60) * (1 - moistureContent / 0.79)) 0.60 1.08
    let crustCoeff := if timeInOil < 40 then (0.035 : ℝ) else 0.010
    let crustThickness :=
      ofClamp (p.crustThickness + crustCoeff * dt * (1 - p.crustThickness)) 0 1
    let q : Potato :=
      { p with timeInOil := timeInOil, isInOil := true, vigorousBubblingPhase := vig,
               moistureContent := moistureContent, density := density,
               crustThickness := crustThickness }
    let heatTransferRate := q.getEffectiveHeatTransferCoefficient * dt
    let temperature :=
      ofClamp (p.temperature + (oilTemp - p.temperature) * heatTransferRate) 20 oilTemp
    let cookedness :=
      if 100 < temperature ∧ temperature < 170 then
        ofClamp (((temperature - 100) / 70) * ((temperature - 100) / 70)) 0 1
      else if 170 ≤ temperature then 1
      else p.cookedness
    let vy1 :=
      ofClamp (p.velocity.y + ((density - oilDensity) * 800 + -p.velocity.y * 3) * dt)
        (-150) 150
    let sv :=
      if density < oilDensity ∧ p.position.y < oilSurfaceY + 20 then
        let v2 := vy1 * 0.85
        if p.position.y < oilSurfaceY + 5 then (oilSurfaceY + 5, max 0 v2)
        else (p.position.y, v2)
      else (p.position.y, vy1)
    let bk :=
      if sv.1 > basketBottomY - p.size.y / 2 then
        (basketBottomY - p.size.y / 2, -sv.2 * 0.3)
      else sv
    let q2 : Potato :=
      { q with temperature := temperature, cookedness := cookedness,
               position := ⟨p.position.x + p.velocity.x * dt, bk.1 + bk.2 * dt⟩,
               velocity := ⟨p.velocity.x, bk.2⟩ }
    { q2 with currentColor := q2.getCookingColor }
  else
    let q : Potato :=
      { p with isInOil := false,
               velocity := ⟨p.velocity.x, p.velocity.y + 600 * dt⟩ }
    let q2 : Potato :=
      { q with position := ⟨q.position.x + q.velocity.x * dt, q.position.y + q.velocity.y * dt⟩ }
    { q2 with currentColor := q2.getCookingColor }

/-- Vector addition. -/
def Vec2.add (a b : Vec2) : Vec2 := ⟨a.x + b.x, a.y + b.y⟩

/-- Scalar multiplication of a vector. -/
def Vec2.scale (a : Vec2) (s : ℝ) : Vec2 := ⟨a.x * s, a.y * s⟩

/-- Euclidean distance between two points. -/
def Vec2.dist (a b : Vec2) : ℝ := Real.sqrt ((a.x - b.x) ^ 2 + (a.y - b.y) ^ 2)

/-- A steam bubble particle. -/
structure Bubble where
  position : Vec2
  velocity : Vec2
  acceleration : Vec2
  startSize : ℝ
  endSize : ℝ
  size : ℝ
  lifespan : ℝ
  life : ℝ
  oscillation : ℝ
  oscillationSpeed : ℝ
  wobblePhase : ℝ
  oilSurfaceY : ℝ
  initialDepth : ℝ
  bubbleType : ℕ
  isDead : Bool
  reachedSurface : Bool
  color : OfColor
  trail : List Vec2
  maxTrailLength : ℕ

/-- The uniform draws consumed by one Bubble constructor call. -/
structure BubbleU where
  uRadius : ℝ
  uVel1 : ℝ
  uVel2 : ℝ
  uSize : ℝ
  uEnd : ℝ
  uLife : ℝ
  uOsc : ℝ
  uWobble : ℝ

/-- All draws of a Bubble constructor call lie in [0,1). -/
def BubbleUValid (u : BubbleU) : Prop :=
  unitI u.uRadius ∧ unitI u.uVel1 ∧ unitI u.uVel2 ∧ unitI u.uSize ∧
    unitI u.uEnd ∧ unitI u.uLife ∧ unitI u.uOsc ∧ unitI u.uWobble

/-- Bubble constructor: classifies the bubble type from the depth-to-radius
ratio and initializes the type-specific parameter set. -/
def Bubble.init (pos : Vec2) (oilTemp depthBelowSurface surfaceY : ℝ) (u : BubbleU) :
    Bubble :=
  let estimatedRadius := ofRandomU 2.5 7 u.uRadius
  let hrRatio := depthBelowSurface / estimatedRadius
  let bubbleType : ℕ := if hrRatio < 0.5 then 0 else if hrRatio < 1.5 then 1 else 2
  let velocity : Vec2 :=
    if bubbleType = 0 then ⟨ofRandomU (-70) 70 u.uVel1, ofRandomU (-140) (-200) u.uVel2⟩
    else if bubbleType = 1 then ⟨ofRandomU (-20) 20 u.uVel1, ofRandomU (-150) (-220) u.uVel2⟩
    else ⟨ofRandomU (-25) 25 u.uVel1, ofRandomU (-80) (-130) u.uVel2⟩
  let startSize :=
    if bubbleType = 0 then ofRandomU 3 7 u.uSize
    else if bubbleType = 1 then ofRandomU 3 6 u.uSize
    else ofRandomU 6 14 u.uSize
  let endSize :=
    if bubbleType = 0 then startSize * ofRandomU 0.15 0.35 u.uEnd
    else if bubbleType = 1 then startSize * ofRandomU 1.8 2.8 u.uEnd
    else startSize * ofRandomU 0.9 1.3 u.uEnd
  let lifespan :=
    if bubbleType = 0 then ofRandomU 0.4 0.9 u.uLife
    else if bubbleType = 1 then ofRandomU 0.7 1.4 u.uLife
    else ofRandomU 1.2 2.5 u.uLife
  let maxTrailLength : ℕ := if bubbleType = 0 then 3 else if bubbleType = 1 then 6 else 8
  let oscillationSpeed := if bubbleType = 2 then ofRandomU 14 30 u.uOsc else 0
  let baseIntensity : ℝ := (cint (ofMap oilTemp 160 190 200 255 true) : ℝ)
  { position := pos, velocity := velocity, acceleration := ⟨0, 0⟩,
    startSize := startSize, endSize := endSize, size := startSize,
    lifespan := lifespan, life := 1, oscillation := 0,
    oscillationSpeed := oscillationSpeed,
    wobblePhase := ofRandomU 0 (2 * Real.pi) u.uWobble,
    oilSurfaceY := surfaceY, initialDepth := depthBelowSurface,
    bubbleType := bubbleType, isDead := false, reachedSurface := false,
    color := ⟨baseIntensity, baseIntensity - 5, baseIntensity - 30, 200⟩,
    trail := [], maxTrailLength := maxTrailLength }

/-- Bubble::update: life countdown, surface-arrival detection, viscous drag,
wobble, semi-implicit Euler integration, size easing, trail maintenance and
alpha fade.  appTime models the ambient ofGetElapsedTimef() clock. -/
def Bubble.update (b : Bubble) (dt oilViscosity appTime : ℝ) : Bubble :=
  let life0 := b.life - dt / b.lifespan
  if life0 ≤ 0 then { b with life := life0, isDead := true }
  else
    let arriving := b.position.y ≤ b.oilSurfaceY + 5 ∧ b.reachedSurface = false
    let reachedSurface : Bool := if arriving then true else b.reachedSurface
    let life := if arriving then min life0 0.15 else life0
    let acc0 := Vec2.add b.acceleration (Vec2.scale b.velocity (-1 * oilViscosity * 20))
    let acc : Vec2 := ⟨acc0.x + Real.sin (b.wobblePhase + appTime * 8) * 15 * dt, acc0.y⟩
    let velocity := Vec2.add b.velocity (Vec2.scale acc dt)
    let position := Vec2.add b.position (Vec2.scale velocity dt)
    let size0 := ofLerp b.startSize b.endSize ((1 - life) * (1 - life))
    let oscillation :=
      if b.bubbleType = 2 then b.oscillation + b.oscillationSpeed * dt else b.oscillation
    let size1 :=
      if b.bubbleType = 2 then size0 + Real.sin oscillation * (b.startSize * 0.22)
      else size0
    let trail :=
      if b.trail.isEmpty = true ∨ Vec2.dist position (b.trail.getLastD ⟨0, 0⟩) > 3 then
        let t := b.trail ++ [position]
        if b.maxTrailLength < t.length then t.tail else t
      else b.trail
    let alphaAndSize :=
      if reachedSurface then
        let popProgress := 1 - life / 0.15
        (ofMap popProgress 0 1 200 0 false, size1 * (1 + popProgress * 0.5))
      else (ofMap life 0 1 60 200 true, size1)
    { b with life := life, reachedSurface := reachedSurface,
             acceleration := ⟨0, 0⟩, velocity := velocity, position := position,
             oscillation := oscillation, size := alphaAndSize.2, trail := trail,
             color := { b.color with a := alphaAndSize.1 } }

/-! ### Scene geometry (ofApp::setup with the 1024x768 window set up in main) -/

/-- Window width. -/
def screenW : ℝ := 1024

/-- Window height. -/
def screenH : ℝ := 768

/-- Left edge of the fryer container. -/
def fryerLeftX : ℝ := screenW * 0.5 - screenW * 0.5 / 2

/-- Right edge of the fryer container. -/
def fryerRightX : ℝ := screenW * 0.5 + screenW * 0.5 / 2

/-- Top of the fryer. -/
def fryerTopY : ℝ := 280

/-- Bottom of the oil body. -/
def oilBottomY : ℝ := fryerTopY + screenH * 0.35

/-- The oil surface coordinate. -/
def oilTopY : ℝ := fryerTopY + 35

/-- Floor of the fryer basket. -/
def basketBottomY : ℝ := oilBottomY - 40

/-- ofApp::updateOilViscosity: Arrhenius viscosity clamped to [0.003, 0.030]. -/
def updateOilViscosity (oilTemperature : ℝ) : ℝ :=
  ofClamp (0.00001 * Real.exp (2500 / (oilTemperature + 273.15))) 0.003 0.030

/-- ofApp::getOilDensity: linear thermal expansion model. -/
def getOilDensity (oilTemperature : ℝ) : ℝ :=
  0.915 - 0.00064 * (oilTemperature - 20)

/-- Uniform draws consumed when spawning one bubble (surface-point selection
plus the Bubble constructor draws). -/
structure SpawnDraws where
  uX : ℝ
  uY : ℝ
  uEdge : ℝ
  uAxis : ℝ
  uSide : ℝ
  bu : BubbleU

/-- All draws used to spawn one bubble lie in [0,1). -/
def SpawnDrawsValid (d : SpawnDraws) : Prop :=
  unitI d.uX ∧ unitI d.uY ∧ unitI d.uEdge ∧ unitI d.uAxis ∧ unitI d.uSide ∧
    BubbleUValid d.bu

/-- The random source and ambient clock consumed by one orchestrator step. -/
structure StepOracle where
  appTime : ℝ
  uCount : ℝ
  uSpor : ℝ
  draws : ℕ → SpawnDraws

/-- A step oracle is valid when every uniform draw lies in [0,1). -/
def OracleValid (o : StepOracle) : Prop :=
  unitI o.uCount ∧ unitI o.uSpor ∧ ∀ i, SpawnDrawsValid (o.draws i)

/-- Potato::getSurfacePointForBubble: a spawn point biased to the fry's edges. -/
def Potato.getSurfacePointForBubble (p : Potato) (d : SpawnDraws) : Vec2 :=
  let x0 := ofRandomU (-p.size.x / 2) (p.size.x / 2) d.uX
  let y0 := ofRandomU (-p.size.y / 2) (p.size.y / 2) d.uY
  let xy :=
    if d.uEdge < 0.90 then
      if d.uAxis < 0.5 then (x0, if d.uSide < 0.5 then -p.size.y / 2 else p.size.y / 2)
      else ((if d.uSide < 0.5 then -p.size.x / 2 else p.size.x / 2), y0)
    else (x0, y0)
  ⟨p.position.x + xy.1, p.position.y + xy.2⟩

/-- The application state owned by the orchestrator. -/
structure AppState where
  oilTemperature : ℝ
  targetTemperature : ℝ
  oilViscosity : ℝ
  oilSurfTemperature : ℝ
  oilSurfTime : ℝ
  potatoFry : Option Potato
  fryInOil : Bool
  dragging : Bool
  dragPosition : Vec2
  isPaused : Bool
  particles : List Bubble
  elapsedTime : ℝ

/-- ofApp::setup: the initial application state. -/
def setupState : AppState :=
  { oilTemperature := 175, targetTemperature := 175,
    oilViscosity := updateOilViscosity 175,
    oilSurfTemperature := 175, oilSurfTime := 0,
    potatoFry := none, fryInOil := false,
    dragging := false, dragPosition := ⟨0, 0⟩,
    isPaused := false, particles := [], elapsedTime := 0 }

/-- Number of bubbles to spawn this frame (jittered, clamped, with sporadic
suppression at low generation rates). -/
def spawnCount (bf target : ℝ) (o : StepOracle) : ℤ :=
  let raw := ofRandomU (max 0 (target - 3)) (target + 3) o.uCount
  let n0 := cint raw
  let n1 := if n0 < 0 then 0 else if n0 > 20 then 20 else n0
  if n1 < 2 ∧ o.uSpor > bf * 8 then 0 else n1

/-- Spawn the frame's new bubbles at surface-biased points on the fry,
clamped to lie strictly inside the oil's vertical band. -/
def spawnBubbles (p : Potato) (oilT bf : ℝ) (o : StepOracle) : List Bubble :=
  let target := ofMap bf 0 1 0.5 20 true
  let n := spawnCount bf target o
  (List.range n.toNat).map fun i =>
    let d := o.draws i
    let bp := p.getSurfacePointForBubble d
    let yc := ofClamp bp.y (oilTopY + 5) (oilBottomY - 5)
    Bubble.init ⟨bp.x, yc⟩ oilT (yc - oilTopY) oilTopY d.bu

/-- Lateral boundary constraint applied to each particle (ofApp::updatePhysics). -/
def boundBubble (b : Bubble) : Bubble :=
  let x1 := if b.position.x < fryerLeftX + 15 then fryerLeftX + 15 else b.position.x
  let x2 := if x1 > fryerRightX - 15 then fryerRightX - 15 else x1
  { b with position := ⟨x2, b.position.y⟩ }

/-- ofApp::update: one orchestrator frame.  Skipped entirely when paused. -/
def appStep (s : AppState) (dtRaw : ℝ) (o : StepOracle) : AppState :=
  if s.isPaused then s
  else
    let dt := ofClamp dtRaw 0 0.1
    let oilT := ofClamp (s.oilTemperature + (s.targetTemperature - s.oilTemperature) * 0.05)
      160 190
    let visc := updateOilViscosity oilT
    let fryAndNew : Option Potato × List Bubble :=
      match s.potatoFry with
      | none => (none, [])
      | some p =>
        if s.fryInOil then
          let p1 := p.update dt oilT oilTopY (getOilDensity oilT) basketBottomY
          let p2 :=
            if s.dragging then { p1 with position := s.dragPosition, velocity := ⟨0, 0⟩ }
            else p1
          let bf := p2.getBubbleGenerationFactor oilT
          (some p2, if bf > 0 then spawnBubbles p2 oilT bf o else [])
        else (some p, [])
    let parts := (s.particles ++ fryAndNew.2).map fun b =>
      boundBubble (b.update dt visc o.appTime)
    { s with oilTemperature := oilT, oilSurfTemperature := oilT, oilViscosity := visc,
             elapsedTime := s.elapsedTime + dt, oilSurfTime := s.oilSurfTime + dt,
             potatoFry := fryAndNew.1,
             particles := parts.filter fun b => !b.isDead }

/-- External input commands and frames driving the orchestrator. -/
inductive Cmd where
  | keyUp : Cmd
  | keyDown : Cmd
  | keySpace : Cmd
  | keyP : Cmd
  | keyR : Cmd
  | mousePress (x y : ℝ) : Cmd
  | mouseDrag (x y : ℝ) : Cmd
  | mouseRelease : Cmd
  | frame (dtRaw : ℝ) (o : StepOracle) : Cmd

/-- One command applied to the application state (ofApp key and mouse
handlers, plus ofApp::update for frames). -/
def execCmd (s : AppState) (c : Cmd) : AppState :=
  match c with
  | .keyP => { s with isPaused := !s.isPaused }
  | .keyUp => { s with targetTemperature := ofClamp (s.targetTemperature + 5) 160 190 }
  | .keyDown => { s with targetTemperature := ofClamp (s.targetTemperature - 5) 160 190 }
  | .keySpace =>
      if s.fryInOil then { s with potatoFry := none, fryInOil := false }
      else
        let p0 := Potato.init ⟨screenW / 2, oilTopY - 80⟩ ⟨120, 20⟩
        { s with potatoFry := some { p0 with velocity := ⟨0, 100⟩ }, fryInOil := true }
  | .keyR => { s with potatoFry := none, fryInOil := false, elapsedTime := 0, particles := [] }
  | .mousePress x y =>
      match s.potatoFry with
      | some p =>
          if Real.sqrt ((x - p.position.x) ^ 2 + (y - p.position.y) ^ 2) < 60 then
            { s with dragging := true, dragPosition := ⟨x, y⟩ }
          else s
      | none => s
  | .mouseDrag x y => if s.dragging then { s with dragPosition := ⟨x, y⟩ } else s
  | .mouseRelease => { s with dragging := false }
  | .frame dtRaw o => appStep s dtRaw o

/-- Validity of a single command: all random draws of a frame lie in [0,1). -/
def CmdValid : Cmd → Prop
  | .frame _ o => OracleValid o
  | _ => True

/-- Validity of a command sequence. -/
def CmdsValid (cs : List Cmd) : Prop := ∀ c ∈ cs, CmdValid c

/-- Run a command sequence from the freshly set-up application. -/
def execCmds (cs : List Cmd) : AppState := cs.foldl execCmd setupState

/-! ### Trajectories and claim-level predicates -/

/-- Partial sums of a sequence of reals. -/
def partialSum (f : ℕ → ℝ) : ℕ → ℝ
  | 0 => 0
  | n + 1 => partialSum f n + f n

/-- The per-call parameters of one Potato::update invocation. -/
structure StepParams where
  dt : ℝ
  oilT : ℝ
  sy : ℝ
  od : ℝ
  bb : ℝ

/-- A fry trajectory: iterated Potato::update calls from an initial state. -/
def potatoSeq (p0 : Potato) (par : ℕ → StepParams) : ℕ → Potato
  | 0 => p0
  | n + 1 =>
    let q := par n
    (potatoSeq p0 par n).update q.dt q.oilT q.sy q.od q.bb

/-- Valid per-step parameters: a frame-clamped positive dt, an oil
temperature in its operating domain, and the matching oil density. -/
def StepParamsValid (q : StepParams) : Prop :=
  0 < q.dt ∧ q.dt ≤ 0.1 ∧ 160 ≤ q.oilT ∧ q.oilT ≤ 190 ∧ q.od = getOilDensity q.oilT

/-- The per-call parameters of one Bubble::update invocation. -/
structure BubbleStep where
  dt : ℝ
  visc : ℝ
  time : ℝ

/-- A bubble trajectory: iterated Bubble::update calls. -/
def bubbleSeq (b0 : Bubble) (par : ℕ → BubbleStep) : ℕ → Bubble
  | 0 => b0
  | n + 1 =>
    let q := par n
    (bubbleSeq b0 par n).update q.dt q.visc q.time

/-- The fry-field domains claimed in the data model, including the claimed
upper bound of the fry temperature by the current oil temperature. -/
def ClaimedFryBounds (oilT : ℝ) (p : Potato) : Prop :=
  0.01 ≤ p.moistureContent ∧ p.moistureContent ≤ 0.79 ∧
  20 ≤ p.temperature ∧ p.temperature ≤ oilT ∧
  0 ≤ p.cookedness ∧ p.cookedness ≤ 1 ∧
  0 ≤ p.crustThickness ∧ p.crustThickness ≤ 1 ∧
  0.60 ≤ p.density ∧ p.density ≤ 1.08

/-- The claimed bounded-field invariant over application states. -/
def ClaimedBounds (s : AppState) : Prop :=
  160 ≤ s.oilTemperature ∧ s.oilTemperature ≤ 190 ∧
  0.003 ≤ s.oilViscosity ∧ s.oilViscosity ≤ 0.030 ∧
  ∀ p, s.potatoFry = some p → ClaimedFryBounds s.oilTemperature p

/-- The amended fry-field domains: the fry temperature is only bounded by
the top of the oil operating range, not by the current oil temperature. -/
def AmendedFryBounds (p : Potato) : Prop :=
  0.01 ≤ p.moistureContent ∧ p.moistureContent ≤ 0.79 ∧
  20 ≤ p.temperature ∧ p.temperature ≤ 190 ∧
  0 ≤ p.cookedness ∧ p.cookedness ≤ 1 ∧
  0 ≤ p.crustThickness ∧ p.crustThickness ≤ 1 ∧
  0.60 ≤ p.density ∧ p.density ≤ 1.08

/-- The amended bounded-field invariant over application states. -/
def AmendedBounds (s : AppState) : Prop :=
  160 ≤ s.oilTemperature ∧ s.oilTemperature ≤ 190 ∧
  0.003 ≤ s.oilViscosity ∧ s.oilViscosity ≤ 0.030 ∧
  ∀ p, s.potatoFry = some p → AmendedFryBounds p

/-- The cookedness value determined by a given fry temperature (zero below
the Maillard onset, quadratic ramp up to 170, saturated above). -/
def cookednessAt (t : ℝ) : ℝ :=
  if 170 ≤ t then 1 else if 100 < t then ((t - 100) / 70) * ((t - 100) / 70) else 0

/-- The inductive invariant carried across commands: the amended bounds
plus the target temperature staying in its domain. -/
def StrongInv (s : AppState) : Prop :=
  AmendedBounds s ∧ 160 ≤ s.targetTemperature ∧ s.targetTemperature ≤ 190

/-- A concrete valid random source: every uniform draw is 0. -/
def oracle0 : StepOracle :=
  { appTime := 0, uCount := 0, uSpor := 0,
    draws := fun _ =>
      { uX := 0, uY := 0, uEdge := 0, uAxis := 0, uSide := 0,
        bu := ⟨0, 0, 0, 0, 0, 0, 0, 0⟩ } }

/-- One 0.1-second frame driven by the all-zero random source. -/
def frame0 : Cmd := Cmd.frame 0.1 oracle0

/-- State invariant while the fry is dragged deep into the oil at a steady
175-degree bath: after k frames the fry-oil temperature gap has shrunk by a
factor of at least exp of minus k over 800. -/
def CookInv (k : ℕ) (s : AppState) : Prop :=
  s.oilTemperature = 175 ∧ s.targetTemperature = 175 ∧ s.isPaused = false ∧
  s.dragging = true ∧ s.dragPosition = ⟨512, 400⟩ ∧ s.fryInOil = true ∧
  ∃ p, s.potatoFry = some p ∧ p.position = ⟨512, 400⟩ ∧
    20 ≤ p.temperature ∧ p.temperature ≤ 175 ∧
    175 - p.temperature ≤ 155 * Real.exp (-((k : ℝ) / 800)) ∧
    0 ≤ p.crustThickness ∧ p.crustThickness ≤ 1 ∧
    0.01 ≤ p.moistureContent ∧ p.moistureContent ≤ 0.79 ∧ 0 ≤ p.timeInOil

/-- State invariant while the hot fry is dragged out of the oil and the
bath smooths toward a 160-degree target: the fry temperature T is frozen
while the oil decays geometrically. -/
def CoolInv (k : ℕ) (T : ℝ) (s : AppState) : Prop :=
  s.oilTemperature = 160 + 15 * (0.95 : ℝ) ^ k ∧ s.targetTemperature = 160 ∧
  s.isPaused = false ∧ s.dragging = true ∧ s.dragPosition = ⟨512, 235⟩ ∧
  s.fryInOil = true ∧
  ∃ p, s.potatoFry = some p ∧ p.position = ⟨512, 235⟩ ∧ p.temperature = T

/-- The command sequence refuting the claimed fry-temperature bound: drag a
fry deep into 175-degree oil for 240 seconds, pull it out of the bath, then
lower the target to 160 and wait 17 frames. -/
def c1CexCmds : List Cmd :=
  [Cmd.keySpace, Cmd.mousePress 512 235, Cmd.mouseDrag 512 400, frame0] ++
    List.replicate 2400 frame0 ++
    [Cmd.mouseDrag 512 235, frame0, Cmd.keyDown, Cmd.keyDown, Cmd.keyDown] ++
    List.replicate 17 frame0

/-- State invariant along a fry trajectory driven by constant step
parameters: after k steps of one tenth of a second each, the position has
drifted at most 15 units per step, the temperature sits between 20 and the
oil temperature with a geometrically shrinking gap, and crust, moisture and
time in oil stay in their domains. -/
def PCInv (p0 : Potato) (oilT : ℝ) (k : ℕ) (p : Potato) : Prop :=
  p.size = p0.size ∧
  p0.position.y - 15 * k ≤ p.position.y ∧ p.position.y ≤ p0.position.y + 15 * k ∧
  20 ≤ p.temperature ∧ p.temperature ≤ oilT ∧
  oilT - p.temperature ≤ (oilT - p0.temperature) * Real.exp (-((k : ℝ) / 800)) ∧
  0 ≤ p.crustThickness ∧ p.crustThickness ≤ 1 ∧
  0.01 ≤ p.moistureContent ∧ p.moistureContent ≤ 0.79 ∧ 0 ≤ p.timeInOil

/-- Step parameters refuting cookedness monotonicity: 280 seconds in
175-degree oil followed by a step in 160-degree oil. -/
def c2Par : ℕ → StepParams := fun k =>
  if k < 2800 then ⟨0.1, 175, 0, getOilDensity 175, 1000000⟩
  else ⟨0.1, 160, 0, getOilDensity 160, 1000000⟩

/-- A freshly spawned fry placed deep inside a tall oil column. -/
def c2Fry0 : Potato := Potato.init ⟨0, 50000⟩ ⟨120, 20⟩

/-- A fry is held continuously submerged for n steps: at every step its
vertical position stays below the oil surface band and above the basket
snap band of that step's geometry. -/
def HeldSubmerged (p0 : Potato) (par : ℕ → StepParams) (n : ℕ) : Prop :=
  ∀ k, k < n → (par k).sy + 20 ≤ (potatoSeq p0 par k).position.y ∧
    (potatoSeq p0 par k).position.y ≤ (par k).bb - (potatoSeq p0 par k).size.y / 2

/-! ### Basic facts about the clamp and map helpers -/

theorem le_ofClamp {v lo hi : ℝ} (h : lo ≤ hi) : lo ≤ ofClamp v lo hi := by
  unfold ofClamp; split_ifs <;> linarith

theorem ofClamp_le {v lo hi : ℝ} (h : lo ≤ hi) : ofClamp v lo hi ≤ hi := by
  unfold ofClamp; split_ifs <;> linarith

theorem ofClamp_eq_of_mem {v lo hi : ℝ} (h1 : lo ≤ v) (h2 : v ≤ hi) :
    ofClamp v lo hi = v := by
  unfold ofClamp; split_ifs <;> linarith

theorem ofClamp_eq_hi {v lo hi : ℝ} (hlh : lo ≤ hi) (h : hi ≤ v) :
    ofClamp v lo hi = hi := by
  unfold ofClamp; split_ifs <;> linarith

theorem ofClamp_mono {a b lo hi : ℝ} (hlh : lo ≤ hi) (h : a ≤ b) :
    ofClamp a lo hi ≤ ofClamp b lo hi := by
  unfold ofClamp; split_ifs <;> linarith

theorem ofMap_clamp_mem {v a b c d : ℝ} (hcd : c ≤ d) :
    c ≤ ofMap v a b c d true ∧ ofMap v a b c d true ≤ d := by
  unfold ofMap; simp only [if_pos rfl]
  split_ifs <;> constructor <;> linarith

theorem ofMap_clamp_mem_rev {v a b c d : ℝ} (hdc : d ≤ c) :
    d ≤ ofMap v a b c d true ∧ ofMap v a b c d true ≤ c := by
  unfold ofMap; simp only [if_pos rfl]
  split_ifs <;> constructor <;> linarith

theorem mem01_mul {a b : ℝ} (ha : 0 ≤ a ∧ a ≤ 1) (hb : 0 ≤ b ∧ b ≤ 1) :
    0 ≤ a * b ∧ a * b ≤ 1 :=
  ⟨mul_nonneg ha.1 hb.1, mul_le_one₀ ha.2 hb.1 hb.2⟩

/-! ### C4: oil viscosity -/

/-- C4: the oil viscosity is the Arrhenius form
mu equals A times exp of Ea over R divided by T in kelvin, clamped to
[0.003, 0.030], and is weakly decreasing on [160, 190] with both results
inside the clamp range. -/
theorem C4_viscosity_arrhenius (T1 T2 : ℝ) (h1 : 160 ≤ T1) (h12 : T1 < T2)
    (h2 : T2 ≤ 190) :
    updateOilViscosity T1 =
      ofClamp (0.00001 * Real.exp (2500 / (T1 + 273.15))) 0.003 0.030 ∧
    updateOilViscosity T2 ≤ updateOilViscosity T1 ∧
    0.003 ≤ updateOilViscosity T1 ∧ updateOilViscosity T1 ≤ 0.030 ∧
    0.003 ≤ updateOilViscosity T2 ∧ updateOilViscosity T2 ≤ 0.030 := by
  refine ⟨rfl, ?_, le_ofClamp (by norm_num), ofClamp_le (by norm_num),
    le_ofClamp (by norm_num), ofClamp_le (by norm_num)⟩
  unfold updateOilViscosity
  apply ofClamp_mono (by norm_num)
  have hd : 2500 / (T2 + 273.15) ≤ 2500 / (T1 + 273.15) := by
    apply div_le_div_of_nonneg_left (by norm_num) (by linarith) (by linarith)
  have := Real.exp_le_exp.mpr hd
  nlinarith [Real.exp_pos (2500 / (T2 + 273.15))]

/-- Witness for C4 at the concrete temperatures 160 and 190. -/
theorem C4_viscosity_arrhenius_witness :
    updateOilViscosity 190 ≤ updateOilViscosity 160 ∧
      0.003 ≤ updateOilViscosity 190 ∧ updateOilViscosity 160 ≤ 0.030 := by
  have h := C4_viscosity_arrhenius 160 190 (by norm_num) (by norm_num) (by norm_num)
  exact ⟨h.2.1, h.2.2.2.2.1, h.2.2.2.1⟩

/-! ### C5: bubble generation factor guards and floor -/

/-- C5: the bubble generation factor returns 0 when the fry is not
submerged, when moisture is below 0.01, or when the oil-fry temperature
difference is below 5; and with moisture above 0.01 and no guard firing,
the result is at least 0.01. -/
theorem C5_bubble_factor_guards (p : Potato) (oilT : ℝ) :
    (p.isInOil = false → p.getBubbleGenerationFactor oilT = 0) ∧
    (p.moistureContent < 0.01 → p.getBubbleGenerationFactor oilT = 0) ∧
    (oilT - p.temperature < 5 → p.getBubbleGenerationFactor oilT = 0) ∧
    (p.isInOil = true → 0.01 < p.moistureContent → 5 ≤ oilT - p.temperature →
      0.01 ≤ p.getBubbleGenerationFactor oilT) := by
  refine ⟨?_, ?_, ?_, ?_⟩
  · intro h; simp [Potato.getBubbleGenerationFactor, h]
  · intro h
    simp only [Potato.getBubbleGenerationFactor]
    split_ifs <;> first | rfl | linarith
  · intro h
    simp only [Potato.getBubbleGenerationFactor]
    split_ifs <;> first | rfl | linarith
  · intro hio hm ht
    simp only [Potato.getBubbleGenerationFactor]
    rw [if_neg (by simp [hio]), if_neg (by linarith), if_neg (by linarith),
      if_pos hm]
    exact le_max_right _ _

/-- Witness for C5: a submerged moist fry well below the oil temperature
generates at least the floor factor. -/
theorem C5_bubble_factor_guards_witness :
    0.01 ≤ Potato.getBubbleGenerationFactor
      { Potato.init ⟨0, 0⟩ ⟨120, 20⟩ with isInOil := true } 175 := by
  have h := C5_bubble_factor_guards
    { Potato.init ⟨0, 0⟩ ⟨120, 20⟩ with isInOil := true } 175
  exact h.2.2.2 rfl (by norm_num [Potato.init]) (by norm_num [Potato.init])

/-! ### C10: the bubble generation factor lies in the unit interval -/

/-- C10: for a fry whose crust lies in its declared domain, the bubble
generation factor always lies in [0, 1]. -/
theorem C10_bubble_factor_unit (p : Potato) (oilT : ℝ)
    (h0 : 0 ≤ p.crustThickness) (h1 : p.crustThickness ≤ 1) :
    0 ≤ p.getBubbleGenerationFactor oilT ∧ p.getBubbleGenerationFactor oilT ≤ 1 := by
  simp only [Potato.getBubbleGenerationFactor]
  by_cases hio : p.isInOil = false
  · rw [if_pos hio]; norm_num
  rw [if_neg hio]
  by_cases hm : p.moistureContent < 0.01
  · rw [if_pos hm]; norm_num
  rw [if_neg hm]
  by_cases ht : oilT - p.temperature < 5
  · rw [if_pos ht]; norm_num
  rw [if_neg ht]
  set tdf := ofMap (oilT - p.temperature) 5 100 0.1 1 true with htdf_def
  set tb := (if p.timeInOil < 20 then ofMap (Real.exp (-p.timeInOil / 8)) 0 1 0 1 true
    else if p.timeInOil < 90 then ofMap p.timeInOil 20 90 1 0 true else (0.02 : ℝ))
    with htb_def
  set mf := (if p.moistureContent > 0.1 then (1 : ℝ)
    else if p.moistureContent > 0.01 then
      (p.moistureContent / 0.1) * (p.moistureContent / 0.1) else 0.01) with hmf_def
  have hcf : 0 ≤ 1 - 0.5 * p.crustThickness ∧ 1 - 0.5 * p.crustThickness ≤ 1 := by
    constructor <;> linarith
  have htd : 0 ≤ tdf ∧ tdf ≤ 1 := by
    rw [htdf_def]
    have := ofMap_clamp_mem (v := oilT - p.temperature) (a := 5) (b := 100)
      (c := 0.1) (d := 1) (by norm_num)
    constructor <;> linarith [this.1, this.2]
  have htb : 0 ≤ tb ∧ tb ≤ 1 := by
    rw [htb_def]
    split_ifs with hta htbb
    · exact ofMap_clamp_mem (by norm_num)
    · have := ofMap_clamp_mem_rev (v := p.timeInOil) (a := 20) (b := 90)
        (c := 1) (d := 0) (by norm_num)
      exact ⟨this.1, this.2⟩
    · norm_num
  have hmf : 0 ≤ mf ∧ mf ≤ 1 := by
    rw [hmf_def]
    split_ifs with ha hb
    · norm_num
    · have hx1 : p.moistureContent / 0.1 ≤ 1 := by
        rw [div_le_one (by norm_num)]
        push_neg at ha
        linarith
      have hx0 : (0 : ℝ) ≤ p.moistureContent / 0.1 := by positivity
      exact ⟨mul_nonneg hx0 hx0, mul_le_one₀ hx1 hx0 hx1⟩
    · norm_num
  have hbase := mem01_mul (mem01_mul (mem01_mul hmf htd) htb) hcf
  split_ifs with hmm
  · exact ⟨le_trans (by norm_num) (le_max_right _ _),
      max_le hbase.2 (by norm_num)⟩
  · exact hbase

/-- Witness for C10 at a concrete freshly spawned fry. -/
theorem C10_bubble_factor_unit_witness :
    0 ≤ Potato.getBubbleGenerationFactor (Potato.init ⟨0, 0⟩ ⟨120, 20⟩) 175 ∧
      Potato.getBubbleGenerationFactor (Potato.init ⟨0, 0⟩ ⟨120, 20⟩) 175 ≤ 1 :=
  C10_bubble_factor_unit (Potato.init ⟨0, 0⟩ ⟨120, 20⟩) 175
    (by norm_num [Potato.init]) (by norm_num [Potato.init])

/-! ### C9: airborne updates leave the cooking state untouched -/

/-- Helper: the airborne branch of Potato::update, written out. -/
theorem Potato.update_airborne (p : Potato) (dt oilTemp sy od bb : ℝ)
    (h : p.position.y ≤ sy) :
    p.update dt oilTemp sy od bb =
      { p with isInOil := false,
               velocity := ⟨p.velocity.x, p.velocity.y + 600 * dt⟩,
               position := ⟨p.position.x + p.velocity.x * dt,
                 p.position.y + (p.velocity.y + 600 * dt) * dt⟩,
               currentColor := Potato.getCookingColor
                 { p with isInOil := false,
                          velocity := ⟨p.velocity.x, p.velocity.y + 600 * dt⟩,
                          position := ⟨p.position.x + p.velocity.x * dt,
                            p.position.y + (p.velocity.y + 600 * dt) * dt⟩ } } := by
  rw [Potato.update, if_neg (not_lt.mpr h)]

/-- C9: when the fry starts an update at or above the oil surface, only
its submersion flag, velocity, position and display color can change:
moisture, temperature, cookedness, crust, density, time in oil (and its
size and bubbling phase) are all unchanged. -/
theorem C9_airborne_frame (p : Potato) (dt oilTemp sy od bb : ℝ)
    (h : p.position.y ≤ sy) :
    (p.update dt oilTemp sy od bb).moistureContent = p.moistureContent ∧
    (p.update dt oilTemp sy od bb).temperature = p.temperature ∧
    (p.update dt oilTemp sy od bb).cookedness = p.cookedness ∧
    (p.update dt oilTemp sy od bb).crustThickness = p.crustThickness ∧
    (p.update dt oilTemp sy od bb).density = p.density ∧
    (p.update dt oilTemp sy od bb).timeInOil = p.timeInOil ∧
    (p.update dt oilTemp sy od bb).size = p.size ∧
    (p.update dt oilTemp sy od bb).vigorousBubblingPhase = p.vigorousBubblingPhase := by
  rw [Potato.update_airborne p dt oilTemp sy od bb h]
  exact ⟨rfl, rfl, rfl, rfl, rfl, rfl, rfl, rfl⟩

/-- Witness for C9 on a concrete fry spawned above the surface. -/
theorem C9_airborne_frame_witness :
    ((Potato.init ⟨512, 235⟩ ⟨120, 20⟩).update 0.016 175 315 0.8158 508.8).temperature =
        (Potato.init ⟨512, 235⟩ ⟨120, 20⟩).temperature ∧
      ((Potato.init ⟨512, 235⟩ ⟨120, 20⟩).update 0.016 175 315 0.8158 508.8).timeInOil =
        (Potato.init ⟨512, 235⟩ ⟨120, 20⟩).timeInOil := by
  have h := C9_airborne_frame (Potato.init ⟨512, 235⟩ ⟨120, 20⟩) 0.016 175 315 0.8158 508.8
    (by norm_num [Potato.init])
  exact ⟨h.2.1, h.2.2.2.2.2.1⟩

/-! ### C8: bubble surface arrival -/

/-- C8: once a bubble has reached the surface the flag never reverts, and
on the step where an alive bubble is first within the surface band the flag
is set and its remaining life is capped at 0.15. -/
theorem C8_surface_arrival (b : Bubble) (dt visc t : ℝ) :
    (b.reachedSurface = true → (b.update dt visc t).reachedSurface = true) ∧
    (b.reachedSurface = false → b.position.y ≤ b.oilSurfaceY + 5 →
      0 < b.life - dt / b.lifespan →
      (b.update dt visc t).reachedSurface = true ∧
        (b.update dt visc t).life ≤ 0.15) := by
  constructor
  · intro hr
    simp only [Bubble.update, hr, and_false]
    split_ifs <;> rfl
  · intro hr hy hl
    have hnd : ¬(b.life - dt / b.lifespan ≤ 0) := not_le.mpr hl
    simp [Bubble.update, hnd, hy, hr]

/-- Witness for C8 on a concrete bubble entering the surface band. -/
theorem C8_surface_arrival_witness :
    (Bubble.update
        { position := ⟨500, 318⟩, velocity := ⟨0, -50⟩, acceleration := ⟨0, 0⟩,
          startSize := 5, endSize := 2, size := 5, lifespan := 1, life := 0.5,
          oscillation := 0, oscillationSpeed := 0, wobblePhase := 0,
          oilSurfaceY := 315, initialDepth := 40, bubbleType := 0, isDead := false,
          reachedSurface := false, color := ⟨255, 250, 225, 200⟩, trail := [],
          maxTrailLength := 3 } 0.016 0.003 1).reachedSurface = true ∧
      (Bubble.update
        { position := ⟨500, 318⟩, velocity := ⟨0, -50⟩, acceleration := ⟨0, 0⟩,
          startSize := 5, endSize := 2, size := 5, lifespan := 1, life := 0.5,
          oscillation := 0, oscillationSpeed := 0, wobblePhase := 0,
          oilSurfaceY := 315, initialDepth := 40, bubbleType := 0, isDead := false,
          reachedSurface := false, color := ⟨255, 250, 225, 200⟩, trail := [],
          maxTrailLength := 3 } 0.016 0.003 1).life ≤ 0.15 := by
  have h := C8_surface_arrival
    { position := ⟨500, 318⟩, velocity := ⟨0, -50⟩, acceleration := ⟨0, 0⟩,
      startSize := 5, endSize := 2, size := 5, lifespan := 1, life := 0.5,
      oscillation := 0, oscillationSpeed := 0, wobblePhase := 0,
      oilSurfaceY := 315, initialDepth := 40, bubbleType := 0, isDead := false,
      reachedSurface := false, color := ⟨255, 250, 225, 200⟩, trail := [],
      maxTrailLength := 3 } 0.016 0.003 1
  exact h.2 rfl (by norm_num) (by norm_num)

/-! ### C7: bubble life countdown and removal time -/

theorem Bubble.update_keeps (b : Bubble) (dt v t : ℝ) :
    (b.update dt v t).lifespan = b.lifespan ∧
      (b.update dt v t).oilSurfaceY = b.oilSurfaceY := by
  simp only [Bubble.update]
  split_ifs <;> exact ⟨rfl, rfl⟩

theorem Bubble.init_basic (pos : Vec2) (oilT depth sy : ℝ) (u : BubbleU) :
    (Bubble.init pos oilT depth sy u).life = 1 ∧
      (Bubble.init pos oilT depth sy u).isDead = false ∧
      (Bubble.init pos oilT depth sy u).reachedSurface = false ∧
      (Bubble.init pos oilT depth sy u).oilSurfaceY = sy ∧
      (Bubble.init pos oilT depth sy u).position = pos := by
  simp [Bubble.init]

theorem Bubble.init_lifespan_mem (pos : Vec2) (oilT depth sy : ℝ) (u : BubbleU)
    (hu : BubbleUValid u) :
    0.4 ≤ (Bubble.init pos oilT depth sy u).lifespan ∧
      (Bubble.init pos oilT depth sy u).lifespan < 2.5 := by
  obtain ⟨-, -, -, -, -, hL, -, -⟩ := hu
  obtain ⟨h0, h1⟩ := hL
  simp only [Bubble.init]
  constructor <;> (split_ifs <;> (unfold ofRandomU; nlinarith))

/-- C7: a spawned bubble's life strictly decreases on every positive-dt
update; while it never enters the surface band, its life after n updates is
exactly one minus the accumulated dt over its lifespan, so it is marked
dead exactly when the accumulated dt reaches its lifespan. -/
theorem C7_bubble_lifecycle (pos : Vec2) (oilT depth sy : ℝ) (u : BubbleU)
    (hu : BubbleUValid u) (par : ℕ → BubbleStep) (n : ℕ)
    (hdt : ∀ k, 0 < (par k).dt)
    (hsurf : ∀ k, (bubbleSeq (Bubble.init pos oilT depth sy u) par k).position.y >
      sy + 5) :
    (∀ k < n, (bubbleSeq (Bubble.init pos oilT depth sy u) par (k + 1)).life <
        (bubbleSeq (Bubble.init pos oilT depth sy u) par k).life) ∧
    (bubbleSeq (Bubble.init pos oilT depth sy u) par n).life =
      1 - partialSum (fun k => (par k).dt) n /
        (Bubble.init pos oilT depth sy u).lifespan ∧
    ((bubbleSeq (Bubble.init pos oilT depth sy u) par n).isDead = true ↔
      (Bubble.init pos oilT depth sy u).lifespan ≤
        partialSum (fun k => (par k).dt) n) := by
  have hmem := Bubble.init_lifespan_mem pos oilT depth sy u hu
  have hbasic := Bubble.init_basic pos oilT depth sy u
  set b0 := Bubble.init pos oilT depth sy u with hb0
  set L := b0.lifespan with hLdef
  set d : ℕ → ℝ := fun k => (par k).dt with hd_def
  have hLpos : 0 < L := by linarith [hmem.1]
  have key : ∀ k, (bubbleSeq b0 par k).life = 1 - partialSum d k / L ∧
      ((bubbleSeq b0 par k).isDead = true ↔ L ≤ partialSum d k) ∧
      (bubbleSeq b0 par k).reachedSurface = false ∧
      (bubbleSeq b0 par k).oilSurfaceY = sy ∧
      (bubbleSeq b0 par k).lifespan = L := by
    intro k
    induction k with
    | zero =>
      refine ⟨by simp [bubbleSeq, partialSum, hbasic.1], ?_, by simp [bubbleSeq, hbasic.2.2.1],
        by simp [bubbleSeq, hbasic.2.2.2.1], by simp [bubbleSeq]⟩
      simp only [bubbleSeq, partialSum]
      exact iff_of_false (by simp [hbasic.2.1]) (not_le.mpr hLpos)
    | succ k ih =>
      obtain ⟨hlife, hdead, hreach, hsy, hlspan⟩ := ih
      have hstep : bubbleSeq b0 par (k + 1) =
          (bubbleSeq b0 par k).update (par k).dt (par k).visc (par k).time := rfl
      by_cases hdie :
          (bubbleSeq b0 par k).life - (par k).dt / (bubbleSeq b0 par k).lifespan ≤ 0
      · have hrec : bubbleSeq b0 par (k + 1) =
            { bubbleSeq b0 par k with
              life := (bubbleSeq b0 par k).life - (par k).dt / (bubbleSeq b0 par k).lifespan,
              isDead := true } := by
          rw [hstep]; simp only [Bubble.update, if_pos hdie]
        have hA : L ≤ partialSum d (k + 1) := by
          rw [hlife, hlspan] at hdie
          have h2 : (1 - partialSum d k / L) * L ≤ ((par k).dt / L) * L := by
            nlinarith
          rw [sub_mul, one_mul, div_mul_cancel₀ _ (ne_of_gt hLpos),
            div_mul_cancel₀ _ (ne_of_gt hLpos)] at h2
          simp only [partialSum]
          linarith
        refine ⟨?_, ?_, ?_, ?_, ?_⟩
        · rw [hrec]
          show (bubbleSeq b0 par k).life - (par k).dt / (bubbleSeq b0 par k).lifespan = _
          rw [hlife, hlspan]
          simp only [partialSum]
          field_simp
          ring
        · rw [hrec]
          exact iff_of_true rfl hA
        · rw [hrec]; exact hreach
        · rw [hrec]; exact hsy
        · rw [hrec]; exact hlspan
      · have harr : ¬((bubbleSeq b0 par k).position.y ≤
            (bubbleSeq b0 par k).oilSurfaceY + 5 ∧
            (bubbleSeq b0 par k).reachedSurface = false) := by
          rintro ⟨h1, -⟩
          rw [hsy] at h1
          exact absurd h1 (not_le.mpr (hsurf k))
        have hAlt : partialSum d (k + 1) < L := by
          rw [hlife, hlspan] at hdie
          push_neg at hdie
          have h2 : ((par k).dt / L) * L < (1 - partialSum d k / L) * L := by
            nlinarith
          rw [sub_mul, one_mul, div_mul_cancel₀ _ (ne_of_gt hLpos),
            div_mul_cancel₀ _ (ne_of_gt hLpos)] at h2
          simp only [partialSum]
          linarith
        have hIsDead : (bubbleSeq b0 par k).isDead = false := by
          cases hb : (bubbleSeq b0 par k).isDead
          · rfl
          · exact absurd (hdead.mp hb) (not_le.mpr (by
              have : partialSum d k ≤ partialSum d (k + 1) := by
                simp only [partialSum]
                have := (hdt k).le
                linarith
              linarith))
        have hrec : (bubbleSeq b0 par (k + 1)).life =
              (bubbleSeq b0 par k).life - (par k).dt / (bubbleSeq b0 par k).lifespan ∧
            (bubbleSeq b0 par (k + 1)).isDead = (bubbleSeq b0 par k).isDead ∧
            (bubbleSeq b0 par (k + 1)).reachedSurface =
              (bubbleSeq b0 par k).reachedSurface ∧
            (bubbleSeq b0 par (k + 1)).oilSurfaceY = (bubbleSeq b0 par k).oilSurfaceY ∧
            (bubbleSeq b0 par (k + 1)).lifespan = (bubbleSeq b0 par k).lifespan := by
          rw [hstep]
          simp only [Bubble.update, if_neg hdie, if_neg harr]
          exact ⟨trivial, trivial, trivial, trivial, trivial⟩
        refine ⟨?_, ?_, ?_, ?_, ?_⟩
        · rw [hrec.1, hlife, hlspan]
          simp only [partialSum]
          field_simp
          ring
        · rw [hrec.2.1, hIsDead]
          exact iff_of_false (by simp) (not_le.mpr hAlt)
        · rw [hrec.2.2.1]; exact hreach
        · rw [hrec.2.2.2.1]; exact hsy
        · rw [hrec.2.2.2.2]; exact hlspan
  refine ⟨?_, (key n).1, (key n).2.1⟩
  intro k _
  rw [(key k).1, (key (k + 1)).1]
  have hlt : partialSum d k < partialSum d (k + 1) := by
    simp only [partialSum]
    linarith [hdt k]
  have hdiv : partialSum d k / L < partialSum d (k + 1) / L :=
    div_lt_div_of_pos_right hlt hLpos
  linarith

theorem c7_witness_lifespan :
    (Bubble.init ⟨500, 100⟩ 175 100 0 ⟨0, 0, 0, 0, 0, 0, 0, 0⟩).lifespan = 1.2 := by
  norm_num [Bubble.init, ofRandomU]

theorem c7_witness_frozen : ∀ k,
    (bubbleSeq (Bubble.init ⟨500, 100⟩ 175 100 0 ⟨0, 0, 0, 0, 0, 0, 0, 0⟩)
        (fun _ => ⟨2.5, 0.003, 0⟩) k).position = (⟨500, 100⟩ : Vec2) ∧
      (bubbleSeq (Bubble.init ⟨500, 100⟩ 175 100 0 ⟨0, 0, 0, 0, 0, 0, 0, 0⟩)
        (fun _ => ⟨2.5, 0.003, 0⟩) k).life ≤ 1 ∧
      (bubbleSeq (Bubble.init ⟨500, 100⟩ 175 100 0 ⟨0, 0, 0, 0, 0, 0, 0, 0⟩)
        (fun _ => ⟨2.5, 0.003, 0⟩) k).lifespan = 1.2 := by
  intro k
  induction k with
  | zero =>
    refine ⟨?_, ?_, c7_witness_lifespan⟩
    · exact (Bubble.init_basic _ _ _ _ _).2.2.2.2
    · show (Bubble.init ⟨500, 100⟩ 175 100 0 ⟨0, 0, 0, 0, 0, 0, 0, 0⟩).life ≤ 1
      rw [(Bubble.init_basic _ _ _ _ _).1]
  | succ k ih =>
    have hd : (bubbleSeq (Bubble.init ⟨500, 100⟩ 175 100 0 ⟨0, 0, 0, 0, 0, 0, 0, 0⟩)
          (fun _ => ⟨2.5, 0.003, 0⟩) k).life -
        (2.5 : ℝ) / (bubbleSeq (Bubble.init ⟨500, 100⟩ 175 100 0 ⟨0, 0, 0, 0, 0, 0, 0, 0⟩)
          (fun _ => ⟨2.5, 0.003, 0⟩) k).lifespan ≤ 0 := by
      rw [ih.2.2]
      nlinarith [ih.2.1]
    have hrec : bubbleSeq (Bubble.init ⟨500, 100⟩ 175 100 0 ⟨0, 0, 0, 0, 0, 0, 0, 0⟩)
        (fun _ => ⟨2.5, 0.003, 0⟩) (k + 1) =
        { bubbleSeq (Bubble.init ⟨500, 100⟩ 175 100 0 ⟨0, 0, 0, 0, 0, 0, 0, 0⟩)
            (fun _ => ⟨2.5, 0.003, 0⟩) k with
          life := (bubbleSeq (Bubble.init ⟨500, 100⟩ 175 100 0 ⟨0, 0, 0, 0, 0, 0, 0, 0⟩)
              (fun _ => ⟨2.5, 0.003, 0⟩) k).life -
            (2.5 : ℝ) / (bubbleSeq (Bubble.init ⟨500, 100⟩ 175 100 0 ⟨0, 0, 0, 0, 0, 0, 0, 0⟩)
              (fun _ => ⟨2.5, 0.003, 0⟩) k).lifespan,
          isDead := true } := by
      show Bubble.update _ _ _ _ = _
      simp only [Bubble.update, if_pos hd]
    rw [hrec]
    exact ⟨ih.1, by linarith [hd], ih.2.2⟩

/-- Witness for C7: a concrete deep bubble with lifespan 1.2 updated once
with dt 2.5 is dead, and its life strictly decreased. -/
theorem C7_bubble_lifecycle_witness :
    (bubbleSeq (Bubble.init ⟨500, 100⟩ 175 100 0 ⟨0, 0, 0, 0, 0, 0, 0, 0⟩)
        (fun _ => ⟨2.5, 0.003, 0⟩) 1).isDead = true ∧
      (bubbleSeq (Bubble.init ⟨500, 100⟩ 175 100 0 ⟨0, 0, 0, 0, 0, 0, 0, 0⟩)
        (fun _ => ⟨2.5, 0.003, 0⟩) 1).life <
      (bubbleSeq (Bubble.init ⟨500, 100⟩ 175 100 0 ⟨0, 0, 0, 0, 0, 0, 0, 0⟩)
        (fun _ => ⟨2.5, 0.003, 0⟩) 0).life := by
  have h := C7_bubble_lifecycle ⟨500, 100⟩ 175 100 0 ⟨0, 0, 0, 0, 0, 0, 0, 0⟩
    (by norm_num [BubbleUValid, unitI]) (fun _ => ⟨2.5, 0.003, 0⟩) 1
    (fun k => by norm_num)
    (fun k => by rw [(c7_witness_frozen k).1]; norm_num)
  refine ⟨h.2.2.mpr ?_, h.1 0 (by norm_num)⟩
  rw [c7_witness_lifespan]
  simp [partialSum]
  norm_num

/-! ### Per-step facts about the submerged potato update -/

theorem ofClamp_eq_max {v lo hi : ℝ} (hv : v ≤ hi) : ofClamp v lo hi = max lo v := by
  unfold ofClamp
  split_ifs with h1 h2
  · exact (max_eq_left h1.le).symm
  · linarith
  · exact (max_eq_right (not_lt.mp h1)).symm

theorem crust_step_facts (c coef dt : ℝ) (hc0 : 0 ≤ c) (hc1 : c ≤ 1) (hdt0 : 0 ≤ dt)
    (hdt1 : dt ≤ 0.1) (hco : 0.01 ≤ coef) (hco1 : coef ≤ 0.035) :
    0 ≤ ofClamp (c + coef * dt * (1 - c)) 0 1 ∧
    ofClamp (c + coef * dt * (1 - c)) 0 1 ≤ 1 ∧
    1 - ofClamp (c + coef * dt * (1 - c)) 0 1 ≤ (1 - c) * Real.exp (-(dt / 100)) := by
  have h1c : (0 : ℝ) ≤ 1 - c := by linarith
  have hcd0 : 0 ≤ coef * dt := mul_nonneg (by linarith) hdt0
  have hcd1 : coef * dt ≤ 0.0035 := by
    have := mul_le_mul hco1 hdt1 hdt0 (by norm_num : (0 : ℝ) ≤ 0.035)
    linarith
  have hprod : 0 ≤ coef * dt * (1 - c) := mul_nonneg hcd0 h1c
  have hv0 : 0 ≤ c + coef * dt * (1 - c) := by linarith
  have hv1 : c + coef * dt * (1 - c) ≤ 1 := by
    have := mul_le_mul_of_nonneg_right hcd1 h1c
    linarith
  rw [ofClamp_eq_of_mem hv0 hv1]
  have hexp : 1 - dt / 100 ≤ Real.exp (-(dt / 100)) := by
    have := Real.add_one_le_exp (-(dt / 100)); linarith
  refine ⟨hv0, hv1, ?_⟩
  have h1 : 1 - (c + coef * dt * (1 - c)) = (1 - c) * (1 - coef * dt) := by ring
  rw [h1]
  have h4 : 0.01 * dt ≤ coef * dt := mul_le_mul_of_nonneg_right hco hdt0
  have h2 : (1 - c) * (1 - coef * dt) ≤ (1 - c) * (1 - dt / 100) := by
    apply mul_le_mul_of_nonneg_left _ h1c
    linarith
  have h3 : (1 - c) * (1 - dt / 100) ≤ (1 - c) * Real.exp (-(dt / 100)) :=
    mul_le_mul_of_nonneg_left hexp h1c
  linarith

theorem heat_coeff_facts (t c : ℝ) (ht : 0 ≤ t) (hc0 : 0 ≤ c) (hc1 : c ≤ 1) :
    0.0125 ≤ (if t < 20 then 0.025 * (1 + 4 * Real.exp (-t / 20)) else 0.025) *
        (1 - 0.5 * c) ∧
      (if t < 20 then 0.025 * (1 + 4 * Real.exp (-t / 20)) else 0.025) *
        (1 - 0.5 * c) ≤ 0.125 := by
  have he1 : Real.exp (-t / 20) ≤ 1 := by
    rw [Real.exp_le_one_iff]
    linarith
  have he0 : 0 < Real.exp (-t / 20) := Real.exp_pos _
  split_ifs with h <;> constructor <;>
    nlinarith [mul_nonneg he0.le hc0,
      mul_nonneg he0.le (by linarith : (0 : ℝ) ≤ 1 - 0.5 * c),
      mul_le_mul_of_nonneg_right he1 (by linarith : (0 : ℝ) ≤ 1 - 0.5 * c)]

theorem temp_step_facts (T oilT h dt : ℝ) (hT20 : 20 ≤ T) (hTo : T ≤ oilT)
    (hh0 : 0.0125 ≤ h) (hh1 : h ≤ 0.125) (hdt0 : 0 ≤ dt) (hdt1 : dt ≤ 0.1) :
    T ≤ ofClamp (T + (oilT - T) * (h * dt)) 20 oilT ∧
    ofClamp (T + (oilT - T) * (h * dt)) 20 oilT ≤ oilT ∧
    20 ≤ ofClamp (T + (oilT - T) * (h * dt)) 20 oilT ∧
    oilT - ofClamp (T + (oilT - T) * (h * dt)) 20 oilT ≤
      (oilT - T) * Real.exp (-(dt / 80)) := by
  have hgap : (0 : ℝ) ≤ oilT - T := by linarith
  have hhd0 : 0 ≤ h * dt := mul_nonneg (by linarith) hdt0
  have hhd1 : h * dt ≤ 0.0125 := by
    have := mul_le_mul hh1 hdt1 hdt0 (by norm_num : (0 : ℝ) ≤ 0.125)
    linarith
  have hv0 : T ≤ T + (oilT - T) * (h * dt) := by
    have := mul_nonneg hgap hhd0
    linarith
  have hv1 : T + (oilT - T) * (h * dt) ≤ oilT := by
    have := mul_le_mul_of_nonneg_left (le_trans hhd1 (by norm_num : (0.0125 : ℝ) ≤ 1)) hgap
    linarith
  rw [ofClamp_eq_of_mem (by linarith) hv1]
  have hexp : 1 - dt / 80 ≤ Real.exp (-(dt / 80)) := by
    have := Real.add_one_le_exp (-(dt / 80)); linarith
  refine ⟨hv0, hv1, by linarith, ?_⟩
  have key : oilT - (T + (oilT - T) * (h * dt)) = (oilT - T) * (1 - h * dt) := by ring
  rw [key]
  have h4 : 0.0125 * dt ≤ h * dt := mul_le_mul_of_nonneg_right hh0 hdt0
  have h2 : (oilT - T) * (1 - h * dt) ≤ (oilT - T) * (1 - dt / 80) := by
    apply mul_le_mul_of_nonneg_left _ hgap
    linarith
  have h3 : (oilT - T) * (1 - dt / 80) ≤ (oilT - T) * Real.exp (-(dt / 80)) :=
    mul_le_mul_of_nonneg_left hexp hgap
  linarith

/-- Characterization of all fields produced by the submerged branch of
Potato::update, phrased with abstract names for the intermediate values. -/
theorem Potato.update_sub_eq (p : Potato) (dt oilT sy od bb : ℝ)
    (hsub : p.position.y > sy) (t' m' c' T' d' vy' : ℝ)
    (ht' : t' = (if p.isInOil = true then p.timeInOil else 0) + dt)
    (hm' : m' = (if p.temperature > 100 then
        ofClamp (p.moistureContent -
          (if t' < 20 then 0.02 * dt * (p.temperature - 100) / 75
           else 0.015 * dt * (p.temperature - 100) / 75) *
          (1 - 0.3 * p.crustThickness)) 0.01 0.79
      else p.moistureContent))
    (hc' : c' = ofClamp (p.crustThickness +
        (if t' < 40 then (0.035 : ℝ) else 0.010) * dt * (1 - p.crustThickness)) 0 1)
    (hT' : T' = ofClamp (p.temperature + (oilT - p.temperature) *
        ((if t' < 20 then 0.025 * (1 + 4 * Real.exp (-t' / 20)) else 0.025) *
          (1 - 0.5 * c') * dt)) 20 oilT)
    (hd' : d' = ofClamp (1.08 - (1.08 - 0.60) * (1 - m' / 0.79)) 0.60 1.08)
    (hvy' : vy' = ofClamp (p.velocity.y + ((d' - od) * 800 + -p.velocity.y * 3) * dt)
      (-150) 150) :
    (p.update dt oilT sy od bb).isInOil = true ∧
    (p.update dt oilT sy od bb).timeInOil = t' ∧
    (p.update dt oilT sy od bb).moistureContent = m' ∧
    (p.update dt oilT sy od bb).crustThickness = c' ∧
    (p.update dt oilT sy od bb).density = d' ∧
    (p.update dt oilT sy od bb).temperature = T' ∧
    (p.update dt oilT sy od bb).cookedness =
      (if 100 < T' ∧ T' < 170 then
        ofClamp (((T' - 100) / 70) * ((T' - 100) / 70)) 0 1
      else if 170 ≤ T' then 1 else p.cookedness) ∧
    (p.update dt oilT sy od bb).size = p.size ∧
    (sy + 20 ≤ p.position.y → p.position.y ≤ bb - p.size.y / 2 →
      (p.update dt oilT sy od bb).velocity.y = vy' ∧
      (p.update dt oilT sy od bb).position.y = p.position.y + vy' * dt) := by
  subst ht' hm' hc' hT' hd' hvy'
  simp only [Potato.update, if_pos hsub, Potato.getEffectiveHeatTransferCoefficient,
    decide_eq_true_eq]
  refine ⟨trivial, trivial, trivial, trivial, trivial, trivial, trivial, trivial, ?_⟩
  intro hns hnb
  have hcond1 : ¬(ofClamp (1.08 - (1.08 - 0.60) *
      (1 - (if p.temperature > 100 then
        ofClamp (p.moistureContent -
          (if (if p.isInOil = true then p.timeInOil else 0) + dt < 20 then
            0.02 * dt * (p.temperature - 100) / 75
           else 0.015 * dt * (p.temperature - 100) / 75) *
          (1 - 0.3 * p.crustThickness)) 0.01 0.79
       else p.moistureContent) / 0.79)) 0.60 1.08 < od ∧ p.position.y < sy + 20) := by
    rintro ⟨-, hlt⟩
    linarith
  rw [if_neg hcond1]
  have hcond2 : ¬(p.position.y > bb - p.size.y / 2) := not_lt.mpr hnb
  rw [if_neg hcond2]
  exact ⟨rfl, rfl⟩

set_option maxHeartbeats 2000000 in
/-- Quantitative per-step facts about a submerged Potato::update call:
temperature rises toward the oil temperature with a geometric gap decay,
crust saturates toward 1, moisture is non-increasing (and decays at rate at
least 0.01 per second once the fry is hotter than 172), and the derived
density and cookedness are determined by the new moisture and temperature. -/
theorem Potato.update_cook_facts (p : Potato) (dt oilT sy od bb : ℝ)
    (hsub : p.position.y > sy) (hdt0 : 0 ≤ dt) (hdt1 : dt ≤ 0.1)
    (hT20 : 20 ≤ p.temperature) (hTo : p.temperature ≤ oilT)
    (hc0 : 0 ≤ p.crustThickness) (hc1 : p.crustThickness ≤ 1)
    (hm0 : 0.01 ≤ p.moistureContent) (hm1 : p.moistureContent ≤ 0.79)
    (ht0 : 0 ≤ p.timeInOil) :
    (p.update dt oilT sy od bb).isInOil = true ∧
    (p.update dt oilT sy od bb).timeInOil =
      (if p.isInOil = true then p.timeInOil else 0) + dt ∧
    p.temperature ≤ (p.update dt oilT sy od bb).temperature ∧
    (p.update dt oilT sy od bb).temperature ≤ oilT ∧
    20 ≤ (p.update dt oilT sy od bb).temperature ∧
    oilT - (p.update dt oilT sy od bb).temperature ≤
      (oilT - p.temperature) * Real.exp (-(dt / 80)) ∧
    0 ≤ (p.update dt oilT sy od bb).crustThickness ∧
    (p.update dt oilT sy od bb).crustThickness ≤ 1 ∧
    1 - (p.update dt oilT sy od bb).crustThickness ≤
      (1 - p.crustThickness) * Real.exp (-(dt / 100)) ∧
    0.01 ≤ (p.update dt oilT sy od bb).moistureContent ∧
    (p.update dt oilT sy od bb).moistureContent ≤ p.moistureContent ∧
    (172 ≤ p.temperature →
      (p.update dt oilT sy od bb).moistureContent ≤
        max 0.01 (p.moistureContent - 0.01 * dt)) ∧
    (p.update dt oilT sy od bb).density =
      ofClamp (1.08 - (1.08 - 0.60) *
        (1 - (p.update dt oilT sy od bb).moistureContent / 0.79)) 0.60 1.08 ∧
    (p.update dt oilT sy od bb).cookedness =
      (if 100 < (p.update dt oilT sy od bb).temperature ∧
          (p.update dt oilT sy od bb).temperature < 170 then
        ofClamp ((((p.update dt oilT sy od bb).temperature - 100) / 70) *
          (((p.update dt oilT sy od bb).temperature - 100) / 70)) 0 1
      else if 170 ≤ (p.update dt oilT sy od bb).temperature then 1
      else p.cookedness) ∧
    (p.update dt oilT sy od bb).size = p.size ∧
    (sy + 20 ≤ p.position.y → p.position.y ≤ bb - p.size.y / 2 →
      -150 ≤ (p.update dt oilT sy od bb).velocity.y ∧
      (p.update dt oilT sy od bb).velocity.y ≤ 150 ∧
      (p.update dt oilT sy od bb).position.y =
        p.position.y + (p.update dt oilT sy od bb).velocity.y * dt) := by
  obtain ⟨hio, htim, hmo, hcr, hden, htem, hcook, hsize, hkin⟩ :=
    Potato.update_sub_eq p dt oilT sy od bb hsub _ _ _ _ _ _ rfl rfl rfl rfl rfl rfl
  have ht'0 : 0 ≤ (if p.isInOil = true then p.timeInOil else 0) + dt := by
    split_ifs <;> linarith
  have hcoefb : 0.01 ≤ (if (if p.isInOil = true then p.timeInOil else 0) + dt < 40 then
        (0.035 : ℝ) else 0.010) ∧
      (if (if p.isInOil = true then p.timeInOil else 0) + dt < 40 then
        (0.035 : ℝ) else 0.010) ≤ 0.035 := by
    constructor <;> (split_ifs <;> norm_num)
  have hcrust := crust_step_facts p.crustThickness _ dt hc0 hc1 hdt0 hdt1
    hcoefb.1 hcoefb.2
  have hheat := heat_coeff_facts ((if p.isInOil = true then p.timeInOil else 0) + dt)
    (ofClamp (p.crustThickness +
      (if (if p.isInOil = true then p.timeInOil else 0) + dt < 40 then
        (0.035 : ℝ) else 0.010) * dt * (1 - p.crustThickness)) 0 1)
    ht'0 hcrust.1 hcrust.2.1
  have htemp := temp_step_facts p.temperature oilT _ dt hT20 hTo hheat.1 hheat.2 hdt0 hdt1
  have hmoist : 0.01 ≤ (p.update dt oilT sy od bb).moistureContent ∧
      (p.update dt oilT sy od bb).moistureContent ≤ p.moistureContent ∧
      (172 ≤ p.temperature →
        (p.update dt oilT sy od bb).moistureContent ≤
          max 0.01 (p.moistureContent - 0.01 * dt)) := by
    rw [hmo]
    by_cases hT100 : p.temperature > 100
    · rw [if_pos hT100]
      have hTpos : (0 : ℝ) ≤ p.temperature - 100 := by linarith
      have hbase0 : 0 ≤ (if (if p.isInOil = true then p.timeInOil else 0) + dt < 20 then
          0.02 * dt * (p.temperature - 100) / 75
          else 0.015 * dt * (p.temperature - 100) / 75) := by
        have hdT : 0 ≤ dt * (p.temperature - 100) := mul_nonneg hdt0 hTpos
        split_ifs <;> nlinarith
      have hcf : (0 : ℝ) ≤ 1 - 0.3 * p.crustThickness := by linarith
      have he0 : 0 ≤ (if (if p.isInOil = true then p.timeInOil else 0) + dt < 20 then
          0.02 * dt * (p.temperature - 100) / 75
          else 0.015 * dt * (p.temperature - 100) / 75) *
          (1 - 0.3 * p.crustThickness) := mul_nonneg hbase0 hcf
      rw [ofClamp_eq_max (by linarith)]
      refine ⟨le_max_left _ _, max_le hm0 (by linarith), ?_⟩
      intro h172
      have hbaseLB : 0.0144 * dt ≤
          (if (if p.isInOil = true then p.timeInOil else 0) + dt < 20 then
            0.02 * dt * (p.temperature - 100) / 75
            else 0.015 * dt * (p.temperature - 100) / 75) := by
        have hdT : 72 * dt ≤ dt * (p.temperature - 100) := by nlinarith
        split_ifs <;> nlinarith
      have heLB : 0.01 * dt ≤
          (if (if p.isInOil = true then p.timeInOil else 0) + dt < 20 then
            0.02 * dt * (p.temperature - 100) / 75
            else 0.015 * dt * (p.temperature - 100) / 75) *
          (1 - 0.3 * p.crustThickness) := by
        have hcf7 : (0.7 : ℝ) ≤ 1 - 0.3 * p.crustThickness := by linarith
        nlinarith [mul_le_mul hbaseLB hcf7 (by norm_num) hbase0]
      exact max_le_max le_rfl (by linarith)
    · rw [if_neg hT100]
      refine ⟨hm0, le_rfl, ?_⟩
      intro h172
      exact absurd (by linarith : p.temperature > 100) hT100
  refine ⟨hio, htim, ?_, ?_, ?_, ?_, ?_, ?_, ?_, hmoist.1, hmoist.2.1, hmoist.2.2,
    ?_, ?_, hsize, ?_⟩
  · rw [htem]; exact htemp.1
  · rw [htem]; exact htemp.2.1
  · rw [htem]; exact htemp.2.2.1
  · rw [htem]; exact htemp.2.2.2
  · rw [hcr]; exact hcrust.1
  · rw [hcr]; exact hcrust.2.1
  · rw [hcr]; exact hcrust.2.2
  · rw [hden, hmo]
  · rw [hcook, htem]
  · intro hns hnb
    obtain ⟨hv, hp⟩ := hkin hns hnb
    rw [hv, hp]
    refine ⟨le_ofClamp (by norm_num), ofClamp_le (by norm_num), rfl⟩

/-! ### C1: the bounded-field invariant over all reachable states -/

set_option maxHeartbeats 2000000 in
theorem Potato.update_bounds (p : Potato) (dt oilT sy od bb : ℝ)
    (hO1 : 160 ≤ oilT) (hO2 : oilT ≤ 190)
    (hpre : AmendedFryBounds p) : AmendedFryBounds (p.update dt oilT sy od bb) := by
  obtain ⟨hm0, hm1, hT0, hT1, hk0, hk1, hc0, hc1, hd0, hd1⟩ := hpre
  by_cases hsub : p.position.y > sy
  · obtain ⟨hio, htim, hmo, hcr, hden, htem, hcook, hsize, hkin⟩ :=
      Potato.update_sub_eq p dt oilT sy od bb hsub _ _ _ _ _ _ rfl rfl rfl rfl rfl rfl
    refine ⟨?_, ?_, ?_, ?_, ?_, ?_, ?_, ?_, ?_, ?_⟩
    · rw [hmo]
      split_ifs <;> first | exact le_ofClamp (by norm_num) | exact hm0
    · rw [hmo]
      split_ifs <;> first | exact ofClamp_le (by norm_num) | exact hm1
    · rw [htem]; exact le_ofClamp (by linarith)
    · rw [htem]
      have := @ofClamp_le (p.temperature + (oilT - p.temperature) *
        ((if (if p.isInOil = true then p.timeInOil else 0) + dt < 20 then
          0.025 * (1 + 4 * Real.exp (-((if p.isInOil = true then p.timeInOil else 0) + dt) / 20))
          else 0.025) *
          (1 - 0.5 * ofClamp (p.crustThickness +
            (if (if p.isInOil = true then p.timeInOil else 0) + dt < 40 then
              (0.035 : ℝ) else 0.010) * dt * (1 - p.crustThickness)) 0 1) * dt))
        20 oilT (by linarith)
      linarith
    · rw [hcook]
      split_ifs <;> first | exact hk0 | exact le_ofClamp (by norm_num) | norm_num
    · rw [hcook]
      split_ifs <;> first | exact hk1 | exact ofClamp_le (by norm_num) | norm_num
    · rw [hcr]; exact le_ofClamp (by norm_num)
    · rw [hcr]; exact ofClamp_le (by norm_num)
    · rw [hden]; exact le_ofClamp (by norm_num)
    · rw [hden]; exact ofClamp_le (by norm_num)
  · rw [Potato.update_airborne p dt oilT sy od bb (not_lt.mp hsub)]
    exact ⟨hm0, hm1, hT0, hT1, hk0, hk1, hc0, hc1, hd0, hd1⟩

theorem execCmd_inv (s : AppState) (c : Cmd) (h : StrongInv s) :
    StrongInv (execCmd s c) := by
  obtain ⟨⟨hO1, hO2, hV1, hV2, hfry⟩, ht1, ht2⟩ := h
  cases c with
  | keyP => exact ⟨⟨hO1, hO2, hV1, hV2, hfry⟩, ht1, ht2⟩
  | keyUp =>
    exact ⟨⟨hO1, hO2, hV1, hV2, hfry⟩, le_ofClamp (by norm_num),
      ofClamp_le (by norm_num)⟩
  | keyDown =>
    exact ⟨⟨hO1, hO2, hV1, hV2, hfry⟩, le_ofClamp (by norm_num),
      ofClamp_le (by norm_num)⟩
  | keySpace =>
    simp only [execCmd]
    split_ifs
    · exact ⟨⟨hO1, hO2, hV1, hV2, by intro p hp; cases hp⟩, ht1, ht2⟩
    · refine ⟨⟨hO1, hO2, hV1, hV2, ?_⟩, ht1, ht2⟩
      intro p hp
      cases hp
      refine ⟨?_, ?_, ?_, ?_, ?_, ?_, ?_, ?_, ?_, ?_⟩ <;> norm_num [Potato.init]
  | keyR => exact ⟨⟨hO1, hO2, hV1, hV2, by intro p hp; cases hp⟩, ht1, ht2⟩
  | mousePress x y =>
    simp only [execCmd]
    rcases hf : s.potatoFry with - | p <;> dsimp only
    · exact ⟨⟨hO1, hO2, hV1, hV2, hfry⟩, ht1, ht2⟩
    · split_ifs
      · refine ⟨⟨hO1, hO2, hV1, hV2, ?_⟩, ht1, ht2⟩
        intro q hq
        apply hfry q
        rw [hf]
        exact hq
      · exact ⟨⟨hO1, hO2, hV1, hV2, hfry⟩, ht1, ht2⟩
  | mouseDrag x y =>
    simp only [execCmd]
    split_ifs
    · exact ⟨⟨hO1, hO2, hV1, hV2, hfry⟩, ht1, ht2⟩
    · exact ⟨⟨hO1, hO2, hV1, hV2, hfry⟩, ht1, ht2⟩
  | mouseRelease => exact ⟨⟨hO1, hO2, hV1, hV2, hfry⟩, ht1, ht2⟩
  | frame dtRaw o =>
    show StrongInv (appStep s dtRaw o)
    by_cases hp : s.isPaused = true
    · simp only [appStep, if_pos hp]
      exact ⟨⟨hO1, hO2, hV1, hV2, hfry⟩, ht1, ht2⟩
    · simp only [appStep, if_neg hp]
      have hOil1 : 160 ≤ ofClamp (s.oilTemperature +
          (s.targetTemperature - s.oilTemperature) * 0.05) 160 190 :=
        le_ofClamp (by norm_num)
      have hOil2 : ofClamp (s.oilTemperature +
          (s.targetTemperature - s.oilTemperature) * 0.05) 160 190 ≤ 190 :=
        ofClamp_le (by norm_num)
      refine ⟨⟨hOil1, hOil2, le_ofClamp (by norm_num), ofClamp_le (by norm_num), ?_⟩,
        ht1, ht2⟩
      intro p' hp'
      rcases hf : s.potatoFry with - | p
      · rw [hf] at hp'
        dsimp only at hp'
        exact Option.noConfusion hp'
      · rw [hf] at hp'
        dsimp only at hp'
        have hpb := hfry p hf
        have hub := Potato.update_bounds p
          (ofClamp dtRaw 0 0.1)
          (ofClamp (s.oilTemperature + (s.targetTemperature - s.oilTemperature) * 0.05)
            160 190) oilTopY
          (getOilDensity (ofClamp (s.oilTemperature +
            (s.targetTemperature - s.oilTemperature) * 0.05) 160 190))
          basketBottomY hOil1 hOil2 hpb
        by_cases hio : s.fryInOil = true
        · rw [if_pos hio] at hp'
          dsimp only at hp'
          obtain rfl := Option.some.inj hp'
          split_ifs with hdrag
          · exact hub
          · exact hub
        · rw [if_neg hio] at hp'
          dsimp only at hp'
          obtain rfl := Option.some.inj hp'
          exact hpb

theorem execCmds_inv (cmds : List Cmd) : StrongInv (execCmds cmds) := by
  have base : StrongInv setupState := by
    refine ⟨⟨by norm_num [setupState], by norm_num [setupState], ?_, ?_, ?_⟩,
      by norm_num [setupState], by norm_num [setupState]⟩
    · exact le_ofClamp (by norm_num)
    · exact ofClamp_le (by norm_num)
    · intro p hp; cases hp
  have step : ∀ (l : List Cmd) (s : AppState), StrongInv s →
      StrongInv (l.foldl execCmd s) := by
    intro l
    induction l with
    | nil => intro s hs; exact hs
    | cons c l ih => intro s hs; exact ih _ (execCmd_inv s c hs)
  exact step cmds setupState base

/-- C1 (amended): over every valid command sequence, the oil temperature
stays in [160, 190], the viscosity in [0.003, 0.030], and the fry's
moisture, cookedness, crust, density stay in their declared domains with
its temperature in [20, 190] (the fry temperature is not always bounded by
the cur-rent oil temperature). -/
theorem C1_bounded_fields_amended (cmds : List Cmd) (hv : CmdsValid cmds) :
    AmendedBounds (execCmds cmds) :=
  (execCmds_inv cmds).1

/-- Witness for the amended C1 on the empty command sequence. -/
theorem C1_bounded_fields_amended_witness : AmendedBounds (execCmds []) :=
  C1_bounded_fields_amended [] (by intro c hc; cases hc)

/-! ### C1 counterexample: the fry can end up hotter than the oil -/

theorem foldl_replicate_ind {P : ℕ → AppState → Prop} (c : Cmd)
    (hstep : ∀ k s, P k s → P (k + 1) (execCmd s c)) :
    ∀ (j k : ℕ) (s : AppState), P k s →
      P (k + j) (List.foldl execCmd s (List.replicate j c)) := by
  intro j
  induction j with
  | zero => intro k s hs; simpa using hs
  | succ j ih =>
    intro k s hs
    rw [List.replicate_succ, List.foldl_cons]
    have h2 := ih (k + 1) (execCmd s c) (hstep k s hs)
    have he : k + 1 + j = k + (j + 1) := by omega
    rwa [he] at h2

theorem cook_step (k : ℕ) (s : AppState) (h : CookInv k s) :
    CookInv (k + 1) (execCmd s frame0) := by
  obtain ⟨hO, hT, hP, hD, hDP, hF, p, hfp, hpos, hT20, hT175, hgap, hc0, hc1,
    hm0, hm1, ht0⟩ := h
  show CookInv (k + 1) (appStep s 0.1 oracle0)
  have hdt : ofClamp (0.1 : ℝ) 0 0.1 = 0.1 := ofClamp_eq_of_mem (by norm_num) (by norm_num)
  have hoil : ofClamp (s.oilTemperature +
      (s.targetTemperature - s.oilTemperature) * 0.05) 160 190 = 175 := by
    rw [hO, hT]
    norm_num
    exact ofClamp_eq_of_mem (by norm_num) (by norm_num)
  have hnp : ¬s.isPaused = true := by rw [hP]; simp
  have hsub : p.position.y > oilTopY := by
    rw [hpos]
    norm_num [oilTopY, fryerTopY]
  have hfacts := Potato.update_cook_facts p 0.1 175 oilTopY (getOilDensity 175)
    basketBottomY hsub (by norm_num) (by norm_num) hT20 hT175 hc0 hc1 hm0 hm1 ht0
  simp only [appStep, if_neg hnp, hdt, hoil, hfp]
  rw [if_pos hF, if_pos hD]
  refine ⟨rfl, hT, hP, hD, hDP, hF, _, rfl, ?_, ?_, ?_, ?_, ?_, ?_, ?_, ?_, ?_⟩
  · rw [hDP]
  · exact hfacts.2.2.1.trans' hT20
  · exact hfacts.2.2.2.1
  · have hstep1 := hfacts.2.2.2.2.2.1
    have hE : (0 : ℝ) < Real.exp (-(0.1 / 80)) := Real.exp_pos _
    have hmul : (175 - p.temperature) * Real.exp (-((0.1 : ℝ) / 80)) ≤
        155 * Real.exp (-((k : ℝ) / 800)) * Real.exp (-((0.1 : ℝ) / 80)) :=
      mul_le_mul_of_nonneg_right hgap hE.le
    have hcomb : 155 * Real.exp (-((k : ℝ) / 800)) * Real.exp (-((0.1 : ℝ) / 80)) =
        155 * Real.exp (-(((k : ℕ) + 1 : ℕ) : ℝ) / 800) := by
      rw [mul_assoc, ← Real.exp_add]
      norm_num
      push_cast
      ring
    calc 175 - (p.update 0.1 175 oilTopY (getOilDensity 175)
          basketBottomY).temperature
        ≤ (175 - p.temperature) * Real.exp (-((0.1 : ℝ) / 80)) := hstep1
      _ ≤ 155 * Real.exp (-((k : ℝ) / 800)) * Real.exp (-((0.1 : ℝ) / 80)) := hmul
      _ = _ := by rw [hcomb, neg_div]
  · exact hfacts.2.2.2.2.2.2.1
  · exact hfacts.2.2.2.2.2.2.2.1
  · exact hfacts.2.2.2.2.2.2.2.2.2.1
  · exact hfacts.2.2.2.2.2.2.2.2.2.2.1.trans hm1
  · rw [hfacts.2.1]
    split_ifs <;> linarith

theorem stageA_cookInv :
    CookInv 0 (execCmds
      [Cmd.keySpace, Cmd.mousePress 512 235, Cmd.mouseDrag 512 400, frame0]) := by
  have e3 : execCmd (execCmd (execCmd setupState Cmd.keySpace)
      (Cmd.mousePress 512 235)) (Cmd.mouseDrag 512 400) =
      { oilTemperature := 175, targetTemperature := 175,
        oilViscosity := updateOilViscosity 175,
        oilSurfTemperature := 175, oilSurfTime := 0,
        potatoFry := some
          { position := ⟨512, 235⟩, size := ⟨120, 20⟩, velocity := ⟨0, 100⟩,
            moistureContent := 0.79, temperature := 20, cookedness := 0,
            crustThickness := 0, density := 1.08, timeInOil := 0,
            isInOil := false, vigorousBubblingPhase := false,
            currentColor := ⟨230, 215, 170, 255⟩ },
        fryInOil := true, dragging := true, dragPosition := ⟨512, 400⟩,
        isPaused := false, particles := [], elapsedTime := 0 } := by
    norm_num [execCmd, setupState, Potato.init, screenW, oilTopY, fryerTopY,
      Real.sqrt_zero]
  show CookInv 0 (execCmd (execCmd (execCmd (execCmd setupState Cmd.keySpace)
    (Cmd.mousePress 512 235)) (Cmd.mouseDrag 512 400)) frame0)
  rw [e3]
  show CookInv 0 (appStep _ 0.1 oracle0)
  have hdt : ofClamp (0.1 : ℝ) 0 0.1 = 0.1 :=
    ofClamp_eq_of_mem (by norm_num) (by norm_num)
  have hoil : ofClamp ((175 : ℝ) + (175 - 175) * 0.05) 160 190 = 175 := by
    norm_num
    exact ofClamp_eq_of_mem (by norm_num) (by norm_num)
  simp only [appStep]
  rw [if_neg (by simp : ¬(false = true))]
  simp only [hdt]
  rw [show ((175 : ℝ) + (175 - 175) * 0.05) = 175 by norm_num,
    show ofClamp (175 : ℝ) 160 190 = 175 from
      ofClamp_eq_of_mem (by norm_num) (by norm_num)]
  have hair := Potato.update_airborne
    { position := ⟨512, 235⟩, size := ⟨120, 20⟩, velocity := ⟨0, 100⟩,
      moistureContent := 0.79, temperature := 20, cookedness := 0,
      crustThickness := 0, density := 1.08, timeInOil := 0,
      isInOil := false, vigorousBubblingPhase := false,
      currentColor := ⟨230, 215, 170, 255⟩ } 0.1 175 oilTopY
    (getOilDensity 175) basketBottomY (by norm_num [oilTopY, fryerTopY])
  simp only [hair]
  refine ⟨rfl, rfl, rfl, rfl, rfl, rfl, _, rfl, rfl, ?_, ?_, ?_, ?_, ?_, ?_, ?_, ?_⟩
  · norm_num
  · norm_num
  · norm_num [Real.exp_zero]
  · norm_num
  · norm_num
  · norm_num
  · norm_num
  · norm_num

theorem execCmd_keyDown_eq (s : AppState) : execCmd s Cmd.keyDown =
    { s with targetTemperature := ofClamp (s.targetTemperature - 5) 160 190 } := rfl

set_option maxHeartbeats 1000000 in
theorem cook_to_cool (s : AppState) (h : CookInv 2400 s) :
    ∃ T, 175 - T ≤ 155 * Real.exp (-3) ∧ T ≤ 175 ∧
      CoolInv 0 T (List.foldl execCmd s
        [Cmd.mouseDrag 512 235, frame0, Cmd.keyDown, Cmd.keyDown, Cmd.keyDown]) := by
  obtain ⟨hO, hT, hP, hD, hDP, hF, p, hfp, hpos, hT20, hT175, hgap, hc0, hc1,
    hm0, hm1, ht0⟩ := h
  have e1 : execCmd s (Cmd.mouseDrag 512 235) = { s with dragPosition := ⟨512, 235⟩ } := by
    simp only [execCmd, if_pos hD]
  have hdt : ofClamp (0.1 : ℝ) 0 0.1 = 0.1 :=
    ofClamp_eq_of_mem (by norm_num) (by norm_num)
  have hoil : ofClamp (s.oilTemperature +
      (s.targetTemperature - s.oilTemperature) * 0.05) 160 190 = 175 := by
    rw [hO, hT]
    norm_num
    exact ofClamp_eq_of_mem (by norm_num) (by norm_num)
  have hnp : ¬s.isPaused = true := by rw [hP]; simp
  have hsub : p.position.y > oilTopY := by
    rw [hpos]
    norm_num [oilTopY, fryerTopY]
  have hfacts := Potato.update_cook_facts p 0.1 175 oilTopY (getOilDensity 175)
    basketBottomY hsub (by norm_num) (by norm_num) hT20 hT175 hc0 hc1 hm0 hm1 ht0
  refine ⟨(p.update 0.1 175 oilTopY (getOilDensity 175) basketBottomY).temperature,
    ?_, hfacts.2.2.2.1, ?_⟩
  · have h1 := hfacts.2.2.2.2.2.1
    have hE1 : Real.exp (-((0.1 : ℝ) / 80)) ≤ 1 := by
      rw [Real.exp_le_one_iff]; norm_num
    have hgap0 : (0 : ℝ) ≤ 175 - p.temperature := by linarith
    have h2 : (175 - p.temperature) * Real.exp (-((0.1 : ℝ) / 80)) ≤
        175 - p.temperature := by
      nlinarith [Real.exp_pos (-((0.1 : ℝ) / 80))]
    have h3 : 155 * Real.exp (-(((2400 : ℕ) : ℝ) / 800)) = 155 * Real.exp (-3) := by
      norm_num
    rw [h3] at hgap
    linarith
  · show CoolInv 0 _ (execCmd (execCmd (execCmd (execCmd (execCmd s
      (Cmd.mouseDrag 512 235)) frame0) Cmd.keyDown) Cmd.keyDown) Cmd.keyDown)
    rw [e1]
    show CoolInv 0 _ (execCmd (execCmd (execCmd
      (appStep { s with dragPosition := ⟨512, 235⟩ } 0.1 oracle0)
      Cmd.keyDown) Cmd.keyDown) Cmd.keyDown)
    simp only [appStep, if_neg hnp, hdt, hoil, hfp]
    rw [if_pos hF, if_pos hD]
    rw [execCmd_keyDown_eq, execCmd_keyDown_eq, execCmd_keyDown_eq]
    have k1 : ofClamp ((175 : ℝ) - 5) 160 190 = 170 := by
      rw [show ((175 : ℝ) - 5) = 170 by norm_num]
      exact ofClamp_eq_of_mem (by norm_num) (by norm_num)
    have k2 : ofClamp ((170 : ℝ) - 5) 160 190 = 165 := by
      rw [show ((170 : ℝ) - 5) = 165 by norm_num]
      exact ofClamp_eq_of_mem (by norm_num) (by norm_num)
    have k3 : ofClamp ((165 : ℝ) - 5) 160 190 = 160 := by
      rw [show ((165 : ℝ) - 5) = 160 by norm_num]
      exact ofClamp_eq_of_mem (by norm_num) (by norm_num)
    refine ⟨?_, ?_, hP, hD, rfl, hF, _, rfl, rfl, rfl⟩
    · show (175 : ℝ) = 160 + 15 * (0.95 : ℝ) ^ (0 : ℕ)
      norm_num
    · show ofClamp (ofClamp (ofClamp (s.targetTemperature - 5) 160 190 - 5)
        160 190 - 5) 160 190 = 160
      rw [hT, k1, k2, k3]

theorem cool_step (k : ℕ) (T : ℝ) (s : AppState) (h : CoolInv k T s) :
    CoolInv (k + 1) T (execCmd s frame0) := by
  obtain ⟨hO, hT, hP, hD, hDP, hF, p, hfp, hpos, hTe⟩ := h
  show CoolInv (k + 1) T (appStep s 0.1 oracle0)
  have hnp : ¬s.isPaused = true := by rw [hP]; simp
  have hdt : ofClamp (0.1 : ℝ) 0 0.1 = 0.1 :=
    ofClamp_eq_of_mem (by norm_num) (by norm_num)
  have hp0 : (0 : ℝ) < 0.95 ^ (k + 1) := pow_pos (by norm_num) _
  have hp1 : (0.95 : ℝ) ^ (k + 1) ≤ 1 := pow_le_one₀ (by norm_num) (by norm_num)
  have hoil : ofClamp (s.oilTemperature +
      (s.targetTemperature - s.oilTemperature) * 0.05) 160 190 =
      160 + 15 * (0.95 : ℝ) ^ (k + 1) := by
    rw [hO, hT]
    rw [show (160 + 15 * (0.95 : ℝ) ^ k) + (160 - (160 + 15 * 0.95 ^ k)) * 0.05 =
      160 + 15 * 0.95 ^ (k + 1) by ring]
    exact ofClamp_eq_of_mem (by nlinarith) (by nlinarith)
  have hair := Potato.update_airborne p 0.1 (160 + 15 * (0.95 : ℝ) ^ (k + 1)) oilTopY
    (getOilDensity (160 + 15 * (0.95 : ℝ) ^ (k + 1))) basketBottomY
    (by rw [hpos]; norm_num [oilTopY, fryerTopY])
  simp only [appStep, if_neg hnp, hdt, hoil, hfp]
  rw [if_pos hF, if_pos hD, hair]
  exact ⟨rfl, hT, hP, hD, hDP, hF, _, rfl, hDP ▸ rfl, hTe⟩

theorem oracle0_valid : OracleValid oracle0 := by
  refine ⟨?_, ?_, fun i => ?_⟩ <;>
    norm_num [oracle0, unitI, SpawnDrawsValid, BubbleUValid]

theorem exp_neg_three_le : Real.exp (-3) ≤ 1 / 20 := by
  rw [Real.exp_neg]
  have h3 : Real.exp 3 = (Real.exp 1) ^ 3 := by
    rw [← Real.exp_nat_mul]; norm_num
  have h2 : (2.7182818283 : ℝ) ^ 3 ≤ (Real.exp 1) ^ 3 :=
    pow_le_pow_left (by norm_num) (le_of_lt Real.exp_one_gt_d9) 3
  have h1 : (20 : ℝ) ≤ Real.exp 3 := by rw [h3]; nlinarith
  have h4 := inv_le_inv_of_le (by norm_num : (0 : ℝ) < 20) h1
  linarith

/-- C1: refuted. The fry temperature is not in general bounded above by the
current oil temperature: cook the fry at 175 degrees for 240 seconds, lift
it above the oil surface, then lower the target to 160 and wait 1.7
seconds; the airborne fry stays near 175 while the oil has cooled below
167, so the claimed invariant fails on the reachable final state. -/
theorem C1_bounded_fields_cex :
    ¬ ∀ cmds : List Cmd, CmdsValid cmds → ClaimedBounds (execCmds cmds) := by
  intro hall
  have hfv : CmdValid frame0 := oracle0_valid
  have hval : CmdsValid c1CexCmds := by
    intro c hc
    have hmem : c = Cmd.keySpace ∨ c = Cmd.mousePress 512 235 ∨
        c = Cmd.mouseDrag 512 400 ∨ c = Cmd.mouseDrag 512 235 ∨
        c = Cmd.keyDown ∨ c = frame0 := by
      simp only [c1CexCmds, List.mem_append, List.mem_cons, List.mem_replicate,
        List.not_mem_nil, or_false] at hc
      tauto
    rcases hmem with rfl | rfl | rfl | rfl | rfl | rfl
    · trivial
    · trivial
    · trivial
    · trivial
    · trivial
    · exact hfv
  have hcb := hall c1CexCmds hval
  have hA : CookInv 0 (execCmds
      [Cmd.keySpace, Cmd.mousePress 512 235, Cmd.mouseDrag 512 400, frame0]) :=
    stageA_cookInv
  have hB := foldl_replicate_ind frame0 cook_step 2400 0 _ hA
  rw [Nat.zero_add] at hB
  obtain ⟨T, hTgap, hT175, hC⟩ := cook_to_cool _ hB
  have hD := @foldl_replicate_ind (fun k s => CoolInv k T s) frame0
    (fun k s h => cool_step k T s h) 17 0 _ hC
  rw [Nat.zero_add] at hD
  have hsplit : execCmds c1CexCmds =
      List.foldl execCmd (List.foldl execCmd (List.foldl execCmd
        (execCmds [Cmd.keySpace, Cmd.mousePress 512 235, Cmd.mouseDrag 512 400, frame0])
        (List.replicate 2400 frame0))
        [Cmd.mouseDrag 512 235, frame0, Cmd.keyDown, Cmd.keyDown, Cmd.keyDown])
        (List.replicate 17 frame0) := by
    simp only [execCmds, c1CexCmds, List.foldl_append]
  rw [hsplit] at hcb
  obtain ⟨hO, -, -, -, -, -, p, hfp, -, hTe⟩ := hD
  have hbd := hcb.2.2.2.2 p hfp
  have hle : p.temperature ≤ (List.foldl execCmd (List.foldl execCmd
      (List.foldl execCmd (execCmds
        [Cmd.keySpace, Cmd.mousePress 512 235, Cmd.mouseDrag 512 400, frame0])
        (List.replicate 2400 frame0))
        [Cmd.mouseDrag 512 235, frame0, Cmd.keyDown, Cmd.keyDown, Cmd.keyDown])
        (List.replicate 17 frame0)).oilTemperature := hbd.2.2.2.1
  rw [hO, hTe] at hle
  have hgap20 : 175 - T ≤ 155 * (1 / 20) := by
    have := mul_le_mul_of_nonneg_left exp_neg_three_le (by norm_num : (0 : ℝ) ≤ 155)
    linarith
  have hpow : (160 : ℝ) + 15 * (0.95 : ℝ) ^ 17 < 175 - 155 * (1 / 20) := by
    norm_num
  linarith

theorem potatoSeq_congr (p0 : Potato) (par par' : ℕ → StepParams) :
    ∀ k, (∀ i, i < k → par i = par' i) → potatoSeq p0 par k = potatoSeq p0 par' k := by
  intro k
  induction k with
  | zero => intro _; rfl
  | succ k ih =>
    intro h
    simp only [potatoSeq]
    rw [ih (fun i hi => h i (Nat.lt_succ_of_lt hi)), h k (Nat.lt_succ_self k)]

theorem potatoSeq_succ (p0 : Potato) (par : ℕ → StepParams) (n : ℕ) :
    potatoSeq p0 par (n + 1) =
      (potatoSeq p0 par n).update (par n).dt (par n).oilT (par n).sy (par n).od
        (par n).bb := by
  simp only [potatoSeq]

set_option maxHeartbeats 2000000 in
theorem potatoSeq_const_inv (p0 : Potato) (oilT sy od bb : ℝ) (n : ℕ)
    (hT0 : 20 ≤ p0.temperature) (hTo0 : p0.temperature ≤ oilT)
    (hcr0 : 0 ≤ p0.crustThickness) (hcr1 : p0.crustThickness ≤ 1)
    (hmo0 : 0.01 ≤ p0.moistureContent) (hmo1 : p0.moistureContent ≤ 0.79)
    (hti0 : 0 ≤ p0.timeInOil)
    (hband1 : sy + 20 ≤ p0.position.y - 15 * n)
    (hband2 : p0.position.y + 15 * n ≤ bb - p0.size.y / 2) :
    ∀ k, k ≤ n →
      PCInv p0 oilT k (potatoSeq p0 (fun _ => ⟨0.1, oilT, sy, od, bb⟩) k) := by
  intro k
  induction k with
  | zero =>
    intro _
    show PCInv p0 oilT 0 p0
    refine ⟨rfl, by norm_num, by norm_num, hT0, hTo0, ?_, hcr0, hcr1, hmo0, hmo1, hti0⟩
    norm_num [Real.exp_zero]
  | succ k ih =>
    intro hk
    have hkn : k ≤ n := Nat.le_of_succ_le hk
    obtain ⟨hsz, hy1, hy2, h20, hTo, hgap, hc0, hc1, hm0, hm1, ht⟩ := ih hkn
    have hkr : (k : ℝ) ≤ (n : ℝ) := Nat.cast_le.mpr hkn
    have h15 : 15 * (k : ℝ) ≤ 15 * (n : ℝ) := by linarith
    have hsub : (potatoSeq p0 (fun _ => (⟨0.1, oilT, sy, od, bb⟩ : StepParams)) k).position.y
        > sy := by linarith
    obtain ⟨hio', hti', hTmono, hTle, hT20', hgap', hcr0', hcr1', hcrd, hmo0', hmole,
        hmstr, hden, hcke, hsze, hkin⟩ :=
      Potato.update_cook_facts
        (potatoSeq p0 (fun _ => (⟨0.1, oilT, sy, od, bb⟩ : StepParams)) k)
        0.1 oilT sy od bb hsub (by norm_num) (by norm_num) h20 hTo hc0 hc1 hm0 hm1 ht
    have hguard1 : sy + 20 ≤
        (potatoSeq p0 (fun _ => (⟨0.1, oilT, sy, od, bb⟩ : StepParams)) k).position.y := by
      linarith
    have hguard2 :
        (potatoSeq p0 (fun _ => (⟨0.1, oilT, sy, od, bb⟩ : StepParams)) k).position.y ≤
          bb - (potatoSeq p0 (fun _ => (⟨0.1, oilT, sy, od, bb⟩ : StepParams)) k).size.y /
            2 := by
      rw [hsz]
      linarith
    obtain ⟨hv1, hv2, hyeq⟩ := hkin hguard1 hguard2
    show PCInv p0 oilT (k + 1)
      ((potatoSeq p0 (fun _ => (⟨0.1, oilT, sy, od, bb⟩ : StepParams)) k).update
        0.1 oilT sy od bb)
    have hc1r : ((k : ℕ) + 1 : ℝ) = (k : ℝ) + 1 := by push_cast; ring
    refine ⟨hsze.trans hsz, ?_, ?_, hT20', hTle, ?_, hcr0', hcr1', hmo0',
      hmole.trans hm1, ?_⟩
    · rw [hyeq]; push_cast; nlinarith
    · rw [hyeq]; push_cast; nlinarith
    · have hE : (0 : ℝ) < Real.exp (-((0.1 : ℝ) / 80)) := Real.exp_pos _
      have hmul : (oilT -
          (potatoSeq p0 (fun _ => (⟨0.1, oilT, sy, od, bb⟩ : StepParams)) k).temperature) *
            Real.exp (-((0.1 : ℝ) / 80)) ≤
          (oilT - p0.temperature) * Real.exp (-((k : ℝ) / 800)) *
            Real.exp (-((0.1 : ℝ) / 80)) :=
        mul_le_mul_of_nonneg_right hgap hE.le
      have hcomb : (oilT - p0.temperature) * Real.exp (-((k : ℝ) / 800)) *
          Real.exp (-((0.1 : ℝ) / 80)) =
          (oilT - p0.temperature) * Real.exp (-(((k + 1 : ℕ) : ℝ) / 800)) := by
        rw [mul_assoc, ← Real.exp_add]
        have harg : -((k : ℝ) / 800) + -((0.1 : ℝ) / 80) = -(((k + 1 : ℕ) : ℝ) / 800) := by
          push_cast
          ring
        rw [harg]
      calc oilT - ((potatoSeq p0 (fun _ => (⟨0.1, oilT, sy, od, bb⟩ : StepParams)) k).update
            0.1 oilT sy od bb).temperature
          ≤ (oilT -
              (potatoSeq p0 (fun _ => (⟨0.1, oilT, sy, od, bb⟩ : StepParams)) k).temperature) *
              Real.exp (-((0.1 : ℝ) / 80)) := hgap'
        _ ≤ (oilT - p0.temperature) * Real.exp (-((k : ℝ) / 800)) *
              Real.exp (-((0.1 : ℝ) / 80)) := hmul
        _ = _ := hcomb
    · rw [hti']
      split_ifs <;> linarith

theorem cookednessAt_nonneg (t : ℝ) : 0 ≤ cookednessAt t := by
  unfold cookednessAt
  split_ifs
  · norm_num
  · exact mul_self_nonneg _
  · exact le_refl 0

theorem cookednessAt_le_one (t : ℝ) : cookednessAt t ≤ 1 := by
  unfold cookednessAt
  split_ifs with h1 h2
  · exact le_refl 1
  · have hu1 : (t - 100) / 70 ≤ 1 := by linarith
    have hu0 : (0 : ℝ) ≤ (t - 100) / 70 := by linarith
    nlinarith
  · norm_num

theorem cookednessAt_mono {a b : ℝ} (h : a ≤ b) : cookednessAt a ≤ cookednessAt b := by
  unfold cookednessAt
  split_ifs with h1 h2 h3 h4 h5 h6 h7
  · exact le_refl 1
  · linarith
  · linarith
  · have hu1 : (a - 100) / 70 ≤ 1 := by linarith
    have hu0 : (0 : ℝ) ≤ (a - 100) / 70 := by linarith
    nlinarith
  · exact mul_le_mul (by linarith) (by linarith) (by linarith) (by linarith)
  · linarith
  · norm_num
  · exact mul_self_nonneg _
  · exact le_refl 0

theorem exp_three_half_gt : (31 : ℝ) < Real.exp 3.5 := by
  have h7 : Real.exp (3.5 : ℝ) * Real.exp 3.5 = Real.exp 7 := by
    rw [← Real.exp_add]; norm_num
  have h2 : Real.exp (7 : ℝ) = (Real.exp 1) ^ 7 := by
    rw [← Real.exp_nat_mul]; norm_num
  have h1 : (2.7182818283 : ℝ) ^ 7 ≤ (Real.exp 1) ^ 7 :=
    pow_le_pow_left (by norm_num) (le_of_lt Real.exp_one_gt_d9) 7
  have h3 : (961 : ℝ) < Real.exp 7 := by rw [h2]; nlinarith
  nlinarith [Real.exp_pos (3.5 : ℝ), h7, h3]

set_option maxHeartbeats 1000000 in
/-- C2 (amended): across one Potato::update call whose oil temperature is at
least the fry's current temperature, cookedness never decreases, and it
stays dominated by the cooking curve evaluated at the fry temperature; the
claimed unconditional monotonicity is false when the oil drops below the
fry temperature. -/
theorem C2_cookedness_monotone_amended (p : Potato) (dt oilT sy od bb : ℝ)
    (hdt0 : 0 ≤ dt) (hdt1 : dt ≤ 0.1)
    (hT20 : 20 ≤ p.temperature) (hTo : p.temperature ≤ oilT)
    (hc0 : 0 ≤ p.crustThickness) (hc1 : p.crustThickness ≤ 1)
    (hm0 : 0.01 ≤ p.moistureContent) (hm1 : p.moistureContent ≤ 0.79)
    (ht0 : 0 ≤ p.timeInOil)
    (hck : p.cookedness ≤ cookednessAt p.temperature) :
    p.cookedness ≤ (p.update dt oilT sy od bb).cookedness ∧
    (p.update dt oilT sy od bb).cookedness ≤
      cookednessAt (p.update dt oilT sy od bb).temperature := by
  by_cases hsub : p.position.y > sy
  · obtain ⟨-, -, hTmono, -, -, -, -, -, -, -, -, -, -, hcke, -, -⟩ :=
      Potato.update_cook_facts p dt oilT sy od bb hsub hdt0 hdt1 hT20 hTo hc0 hc1
        hm0 hm1 ht0
    rw [hcke]
    by_cases h1 : 100 < (p.update dt oilT sy od bb).temperature ∧
        (p.update dt oilT sy od bb).temperature < 170
    · rw [if_pos h1]
      have hu1 : ((p.update dt oilT sy od bb).temperature - 100) / 70 ≤ 1 := by
        have := h1.2; linarith
      have hu0 : (0 : ℝ) ≤ ((p.update dt oilT sy od bb).temperature - 100) / 70 := by
        have := h1.1; linarith
      have hsq1 : (((p.update dt oilT sy od bb).temperature - 100) / 70) *
          (((p.update dt oilT sy od bb).temperature - 100) / 70) ≤ 1 := by nlinarith
      rw [ofClamp_eq_of_mem (mul_self_nonneg _) hsq1]
      have hval : cookednessAt (p.update dt oilT sy od bb).temperature =
          (((p.update dt oilT sy od bb).temperature - 100) / 70) *
          (((p.update dt oilT sy od bb).temperature - 100) / 70) := by
        unfold cookednessAt
        rw [if_neg (by linarith [h1.2] : ¬(170 : ℝ) ≤
          (p.update dt oilT sy od bb).temperature), if_pos h1.1]
      refine ⟨?_, le_of_eq hval.symm⟩
      calc p.cookedness ≤ cookednessAt p.temperature := hck
        _ ≤ cookednessAt (p.update dt oilT sy od bb).temperature :=
            cookednessAt_mono hTmono
        _ = _ := hval
    · rw [if_neg h1]
      by_cases h2 : 170 ≤ (p.update dt oilT sy od bb).temperature
      · rw [if_pos h2]
        refine ⟨hck.trans (cookednessAt_le_one _), ?_⟩
        unfold cookednessAt
        rw [if_pos h2]
      · rw [if_neg h2]
        exact ⟨le_refl _, hck.trans (cookednessAt_mono hTmono)⟩
  · rw [Potato.update_airborne p dt oilT sy od bb (not_lt.mp hsub)]
    exact ⟨le_refl _, hck⟩

/-- Witness for the amended C2 theorem on a freshly spawned submerged fry. -/
theorem C2_cookedness_monotone_amended_witness :
    (Potato.init ⟨0, 400⟩ ⟨120, 20⟩).cookedness ≤
      ((Potato.init ⟨0, 400⟩ ⟨120, 20⟩).update 0.1 175 0 (getOilDensity 175)
        1000000).cookedness :=
  (C2_cookedness_monotone_amended (Potato.init ⟨0, 400⟩ ⟨120, 20⟩) 0.1 175 0
    (getOilDensity 175) 1000000 (by norm_num) (by norm_num)
    (by norm_num [Potato.init]) (by norm_num [Potato.init])
    (by norm_num [Potato.init]) (by norm_num [Potato.init])
    (by norm_num [Potato.init]) (by norm_num [Potato.init])
    (by norm_num [Potato.init])
    (by norm_num [Potato.init, cookednessAt])).1

theorem c2_phase1 (k : ℕ) (hk : k ≤ 2800) :
    PCInv c2Fry0 175 k (potatoSeq c2Fry0 c2Par k) := by
  have hcong : potatoSeq c2Fry0 c2Par k =
      potatoSeq c2Fry0
        (fun _ => (⟨0.1, 175, 0, getOilDensity 175, 1000000⟩ : StepParams)) k := by
    apply potatoSeq_congr
    intro i hi
    have hi2 : i < 2800 := lt_of_lt_of_le hi hk
    simp [c2Par, hi2]
  rw [hcong]
  exact potatoSeq_const_inv c2Fry0 175 0 (getOilDensity 175) 1000000 2800
    (by norm_num [c2Fry0, Potato.init]) (by norm_num [c2Fry0, Potato.init])
    (by norm_num [c2Fry0, Potato.init]) (by norm_num [c2Fry0, Potato.init])
    (by norm_num [c2Fry0, Potato.init]) (by norm_num [c2Fry0, Potato.init])
    (by norm_num [c2Fry0, Potato.init]) (by norm_num [c2Fry0, Potato.init])
    (by norm_num [c2Fry0, Potato.init]) k hk

set_option maxHeartbeats 2000000 in
/-- C2: refuted. Cookedness can decrease across an update: a fry cooked for
280 seconds in 175-degree oil reaches a temperature above 170 and
cookedness 1, but one further update in 160-degree oil clamps its
temperature down to 160 and recomputes cookedness as (60/70)^2 = 36/49. -/
theorem C2_cookedness_monotone_cex :
    ¬ ∀ (p0 : Potato) (par : ℕ → StepParams),
        (∀ k, StepParamsValid (par k)) → ∀ n,
          (potatoSeq p0 par n).cookedness ≤ (potatoSeq p0 par (n + 1)).cookedness := by
  intro hall
  have hval : ∀ k, StepParamsValid (c2Par k) := by
    intro k
    unfold c2Par StepParamsValid
    split_ifs <;> exact ⟨by norm_num, by norm_num, by norm_num, by norm_num, rfl⟩
  have hmono := hall c2Fry0 c2Par hval 2800
  obtain ⟨hsz9, hy19, hy29, h209, hTo9, hgap9, hcr09, hcr19, hm09, hm19, ht9⟩ :=
    c2_phase1 2799 (by norm_num)
  obtain ⟨hsz, hy1, hy2, h20, hTo, hgap, hcr0, hcr1, hm0, hm1, ht⟩ :=
    c2_phase1 2800 (by norm_num)
  have hy0 : c2Fry0.position.y = 50000 := rfl
  have hT0 : c2Fry0.temperature = 20 := rfl
  rw [hy0] at hy19 hy29 hy1 hy2
  rw [hT0] at hgap9 hgap
  have hT170 : (170 : ℝ) ≤ (potatoSeq c2Fry0 c2Par 2800).temperature := by
    have hE : Real.exp (-(((2800 : ℕ) : ℝ) / 800)) ≤ 1 / 31 := by
      have h1 : (-(((2800 : ℕ) : ℝ) / 800)) = -(3.5 : ℝ) := by norm_num
      rw [h1, Real.exp_neg]
      have h2 := inv_le_inv_of_le (by norm_num : (0 : ℝ) < 31) exp_three_half_gt.le
      calc (Real.exp 3.5)⁻¹ ≤ 31⁻¹ := h2
        _ = 1 / 31 := by norm_num
    have h3 : ((175 : ℝ) - 20) * Real.exp (-(((2800 : ℕ) : ℝ) / 800)) ≤ 155 * (1 / 31) := by
      have := mul_le_mul_of_nonneg_left hE (by norm_num : (0 : ℝ) ≤ 155)
      linarith
    linarith
  have hstep9 : potatoSeq c2Fry0 c2Par 2800 =
      (potatoSeq c2Fry0 c2Par 2799).update 0.1 175 0 (getOilDensity 175) 1000000 := by
    show potatoSeq c2Fry0 c2Par (2799 + 1) = _
    rw [potatoSeq_succ]
    norm_num [c2Par]
  have hsub9 : (potatoSeq c2Fry0 c2Par 2799).position.y > 0 := by
    have : ((2799 : ℕ) : ℝ) = 2799 := by norm_num
    rw [this] at hy19
    linarith
  obtain ⟨-, -, -, -, -, -, -, -, -, -, -, -, -, hcke9, -, -⟩ :=
    Potato.update_cook_facts (potatoSeq c2Fry0 c2Par 2799) 0.1 175 0
      (getOilDensity 175) 1000000 hsub9 (by norm_num) (by norm_num)
      h209 hTo9 hcr09 hcr19 hm09 hm19 ht9
  rw [← hstep9] at hcke9
  have hck2800 : (potatoSeq c2Fry0 c2Par 2800).cookedness = 1 := by
    rw [hcke9]
    rw [if_neg (by rintro ⟨-, hlt⟩; linarith), if_pos hT170]
  have hsub : (potatoSeq c2Fry0 c2Par 2800).position.y > 0 := by
    have : ((2800 : ℕ) : ℝ) = 2800 := by norm_num
    rw [this] at hy1
    linarith
  obtain ⟨-, ht'e, -, -, -, hT'e, hcke2, -, -⟩ :=
    Potato.update_sub_eq (potatoSeq c2Fry0 c2Par 2800) 0.1 160 0 (getOilDensity 160)
      1000000 hsub _ _ _ _ _ _ rfl rfl rfl rfl rfl rfl
  have ht'0 : (0 : ℝ) ≤ (if (potatoSeq c2Fry0 c2Par 2800).isInOil = true
      then (potatoSeq c2Fry0 c2Par 2800).timeInOil else 0) + 0.1 := by
    split_ifs <;> linarith
  have hc'0 : (0 : ℝ) ≤ ofClamp ((potatoSeq c2Fry0 c2Par 2800).crustThickness +
      (if (if (potatoSeq c2Fry0 c2Par 2800).isInOil = true
          then (potatoSeq c2Fry0 c2Par 2800).timeInOil else 0) + 0.1 < 40 then (0.035 : ℝ)
        else 0.010) * 0.1 * (1 - (potatoSeq c2Fry0 c2Par 2800).crustThickness)) 0 1 :=
    le_ofClamp (by norm_num)
  have hc'1 : ofClamp ((potatoSeq c2Fry0 c2Par 2800).crustThickness +
      (if (if (potatoSeq c2Fry0 c2Par 2800).isInOil = true
          then (potatoSeq c2Fry0 c2Par 2800).timeInOil else 0) + 0.1 < 40 then (0.035 : ℝ)
        else 0.010) * 0.1 * (1 - (potatoSeq c2Fry0 c2Par 2800).crustThickness)) 0 1 ≤ 1 :=
    ofClamp_le (by norm_num)
  have hcf := heat_coeff_facts _ _ ht'0 hc'0 hc'1
  have hT'val : ((potatoSeq c2Fry0 c2Par 2800).update 0.1 160 0 (getOilDensity 160)
      1000000).temperature = 160 := by
    rw [hT'e]
    apply ofClamp_eq_hi (by norm_num)
    nlinarith [hcf.1, hcf.2, hT170, hTo]
  have hTv := hT'e.symm.trans hT'val
  rw [hTv] at hcke2
  have hck2801 : ((potatoSeq c2Fry0 c2Par 2800).update 0.1 160 0 (getOilDensity 160)
      1000000).cookedness = 36 / 49 := by
    rw [hcke2]
    norm_num [ofClamp]
  have hstep0 : potatoSeq c2Fry0 c2Par (2800 + 1) =
      (potatoSeq c2Fry0 c2Par 2800).update 0.1 160 0 (getOilDensity 160) 1000000 := by
    rw [potatoSeq_succ]
    norm_num [c2Par]
  rw [hck2800, hstep0, hck2801] at hmono
  norm_num at hmono

/-- C6 (amended): a reset clears the fry slot and the particle collection
and leaves the oil temperature itself untouched, but the following frame
still smooths the oil toward the target: the post-step oil temperature is
the clamped 5-percent blend, which equals the pre-reset value exactly when
the target already equals the oil temperature. -/
theorem C6_reset_step_amended (s : AppState) (o : StepOracle)
    (hp : s.isPaused = false) :
    (appStep (execCmd s Cmd.keyR) 0.016 o).particles = [] ∧
    (appStep (execCmd s Cmd.keyR) 0.016 o).potatoFry = none ∧
    (appStep (execCmd s Cmd.keyR) 0.016 o).oilTemperature =
      ofClamp (s.oilTemperature + (s.targetTemperature - s.oilTemperature) * 0.05)
        160 190 ∧
    (execCmd s Cmd.keyR).oilTemperature = s.oilTemperature ∧
    (s.targetTemperature = s.oilTemperature → 160 ≤ s.oilTemperature →
      s.oilTemperature ≤ 190 →
      (appStep (execCmd s Cmd.keyR) 0.016 o).oilTemperature = s.oilTemperature) := by
  have hnp : ¬(execCmd s Cmd.keyR).isPaused = true := by
    show ¬s.isPaused = true
    rw [hp]
    simp
  have hpf : (execCmd s Cmd.keyR).potatoFry = none := rfl
  have hpart : (execCmd s Cmd.keyR).particles = [] := rfl
  have hoil : (execCmd s Cmd.keyR).oilTemperature = s.oilTemperature := rfl
  have htar : (execCmd s Cmd.keyR).targetTemperature = s.targetTemperature := rfl
  simp only [appStep, if_neg hnp, hpf, hpart, hoil, htar]
  refine ⟨by simp, by simp, by simp, trivial, ?_⟩
  intro ht h1 h2
  rw [ht]
  rw [show s.oilTemperature + (s.oilTemperature - s.oilTemperature) * 0.05 =
    s.oilTemperature by ring]
  exact ofClamp_eq_of_mem h1 h2

/-- Witness for the amended C6 theorem at the freshly set-up state. -/
theorem C6_reset_step_amended_witness :
    (appStep (execCmd setupState Cmd.keyR) 0.016 oracle0).particles = [] ∧
    (appStep (execCmd setupState Cmd.keyR) 0.016 oracle0).potatoFry = none ∧
    (appStep (execCmd setupState Cmd.keyR) 0.016 oracle0).oilTemperature =
      setupState.oilTemperature := by
  obtain ⟨h1, h2, -, -, h5⟩ := C6_reset_step_amended setupState oracle0 rfl
  exact ⟨h1, h2, h5 rfl (by norm_num [setupState]) (by norm_num [setupState])⟩

/-- C6: refuted. Reset clears the fry and the particles and the reset
itself leaves the oil temperature alone, but the following frame still
smooths the oil toward the target: raising the target once before the
reset makes the post-step oil temperature 175.25, not the pre-reset 175. -/
theorem C6_reset_step_cex :
    ¬ ∀ cmds : List Cmd, CmdsValid cmds → ∀ o : StepOracle, OracleValid o →
        (appStep (execCmd (execCmds cmds) Cmd.keyR) 0.016 o).particles = [] ∧
        (appStep (execCmd (execCmds cmds) Cmd.keyR) 0.016 o).potatoFry = none ∧
        (appStep (execCmd (execCmds cmds) Cmd.keyR) 0.016 o).oilTemperature =
          (execCmds cmds).oilTemperature := by
  intro hall
  have hv : CmdsValid [Cmd.keyUp] := by
    intro c hc
    simp only [List.mem_cons, List.not_mem_nil, or_false] at hc
    subst hc
    trivial
  have h := (hall [Cmd.keyUp] hv oracle0 oracle0_valid).2.2
  have e1 : execCmds [Cmd.keyUp] = { setupState with targetTemperature := 180 } := by
    show execCmd setupState Cmd.keyUp = _
    have : ofClamp (setupState.targetTemperature + 5) 160 190 = 180 := by
      norm_num [setupState]
      exact ofClamp_eq_of_mem (by norm_num) (by norm_num)
    simp [execCmd, this]
  rw [e1] at h
  have e2 : execCmd { setupState with targetTemperature := 180 } Cmd.keyR =
      { setupState with targetTemperature := 180 } := rfl
  rw [e2] at h
  have e3 : (appStep { setupState with targetTemperature := 180 } 0.016
      oracle0).oilTemperature = 175.25 := by
    have hnp : ¬({ setupState with targetTemperature := 180 } : AppState).isPaused
        = true := by
      show ¬setupState.isPaused = true
      simp [setupState]
    simp only [appStep, if_neg hnp]
    show ofClamp (setupState.oilTemperature +
      (180 - setupState.oilTemperature) * 0.05) 160 190 = 175.25
    have : setupState.oilTemperature + (180 - setupState.oilTemperature) * 0.05 =
        175.25 := by
      norm_num [setupState]
    rw [this]
    exact ofClamp_eq_of_mem (by norm_num) (by norm_num)
  rw [e3] at h
  have e4 : ({ setupState with targetTemperature := 180 } : AppState).oilTemperature
      = 175 := rfl
  rw [e4] at h
  norm_num at h

set_option maxHeartbeats 2000000 in
theorem c3_main (startPos sz : Vec2) (par : ℕ → StepParams) (n : ℕ)
    (hdt : ∀ k, 0 < (par k).dt ∧ (par k).dt ≤ 0.1)
    (hheld : HeldSubmerged (Potato.init startPos sz) par n)
    (hoil : ∀ k, (par k).oilT = 180) :
    ∀ k, k ≤ n →
      20 ≤ (potatoSeq (Potato.init startPos sz) par k).temperature ∧
      (potatoSeq (Potato.init startPos sz) par k).temperature ≤ 180 ∧
      180 - (potatoSeq (Potato.init startPos sz) par k).temperature ≤
        160 * Real.exp (-(partialSum (fun i => (par i).dt) k / 80)) ∧
      0 ≤ (potatoSeq (Potato.init startPos sz) par k).crustThickness ∧
      (potatoSeq (Potato.init startPos sz) par k).crustThickness ≤ 1 ∧
      1 - (potatoSeq (Potato.init startPos sz) par k).crustThickness ≤
        Real.exp (-(partialSum (fun i => (par i).dt) k / 100)) ∧
      0.01 ≤ (potatoSeq (Potato.init startPos sz) par k).moistureContent ∧
      (potatoSeq (Potato.init startPos sz) par k).moistureContent ≤ 0.79 ∧
      0 ≤ (potatoSeq (Potato.init startPos sz) par k).timeInOil := by
  intro k
  induction k with
  | zero =>
    intro _
    simp only [potatoSeq, partialSum]
    norm_num [Potato.init, Real.exp_zero]
  | succ k ih =>
    intro hk
    have hkn : k ≤ n := Nat.le_of_succ_le hk
    obtain ⟨h20, hTle, hgap, hc0, hc1, hcrd, hm0, hm1, ht⟩ := ih hkn
    obtain ⟨hheld1, hheld2⟩ := hheld k (Nat.lt_of_succ_le hk)
    have hsub : (potatoSeq (Potato.init startPos sz) par k).position.y > (par k).sy := by
      linarith
    obtain ⟨hio', hti', hTmono, hTle', hT20', hgap', hcr0', hcr1', hcrd', hmo0', hmole,
        hmstr, hden, hcke, hsze, hkin⟩ :=
      Potato.update_cook_facts (potatoSeq (Potato.init startPos sz) par k)
        ((par k).dt) 180 ((par k).sy) ((par k).od) ((par k).bb) hsub (hdt k).1.le
        (hdt k).2 h20 (by rw [← hoil k] at hTle ⊢; exact hTle) hc0 hc1 hm0 hm1 ht
    rw [potatoSeq_succ, hoil k]
    simp only [partialSum]
    have hE80 : (0 : ℝ) < Real.exp (-((par k).dt / 80)) := Real.exp_pos _
    have hE100 : (0 : ℝ) < Real.exp (-((par k).dt / 100)) := Real.exp_pos _
    refine ⟨hT20', hTle', ?_, hcr0', hcr1', ?_, hmo0', hmole.trans hm1, ?_⟩
    · have hmul : (180 - (potatoSeq (Potato.init startPos sz) par k).temperature) *
          Real.exp (-((par k).dt / 80)) ≤
          160 * Real.exp (-(partialSum (fun i => (par i).dt) k / 80)) *
            Real.exp (-((par k).dt / 80)) :=
        mul_le_mul_of_nonneg_right hgap hE80.le
      have hcomb : 160 * Real.exp (-(partialSum (fun i => (par i).dt) k / 80)) *
          Real.exp (-((par k).dt / 80)) =
          160 * Real.exp (-((partialSum (fun i => (par i).dt) k + (par k).dt) / 80)) := by
        rw [mul_assoc, ← Real.exp_add]
        have harg : -(partialSum (fun i => (par i).dt) k / 80) + -((par k).dt / 80) =
            -((partialSum (fun i => (par i).dt) k + (par k).dt) / 80) := by ring
        rw [harg]
      calc 180 - ((potatoSeq (Potato.init startPos sz) par k).update ((par k).dt) 180
            ((par k).sy) ((par k).od) ((par k).bb)).temperature
          ≤ (180 - (potatoSeq (Potato.init startPos sz) par k).temperature) *
              Real.exp (-((par k).dt / 80)) := hgap'
        _ ≤ 160 * Real.exp (-(partialSum (fun i => (par i).dt) k / 80)) *
              Real.exp (-((par k).dt / 80)) := hmul
        _ = _ := hcomb
    · have hmul : (1 - (potatoSeq (Potato.init startPos sz) par k).crustThickness) *
          Real.exp (-((par k).dt / 100)) ≤
          Real.exp (-(partialSum (fun i => (par i).dt) k / 100)) *
            Real.exp (-((par k).dt / 100)) :=
        mul_le_mul_of_nonneg_right hcrd hE100.le
      have hcomb : Real.exp (-(partialSum (fun i => (par i).dt) k / 100)) *
          Real.exp (-((par k).dt / 100)) =
          Real.exp (-((partialSum (fun i => (par i).dt) k + (par k).dt) / 100)) := by
        rw [← Real.exp_add]
        have harg : -(partialSum (fun i => (par i).dt) k / 100) + -((par k).dt / 100) =
            -((partialSum (fun i => (par i).dt) k + (par k).dt) / 100) := by ring
        rw [harg]
      calc 1 - ((potatoSeq (Potato.init startPos sz) par k).update ((par k).dt) 180
            ((par k).sy) ((par k).od) ((par k).bb)).crustThickness
          ≤ (1 - (potatoSeq (Potato.init startPos sz) par k).crustThickness) *
              Real.exp (-((par k).dt / 100)) := hcrd'
        _ ≤ Real.exp (-(partialSum (fun i => (par i).dt) k / 100)) *
              Real.exp (-((par k).dt / 100)) := hmul
        _ = _ := hcomb
    · rw [hti']
      have := (hdt k).1
      split_ifs <;> linarith

set_option maxHeartbeats 2000000 in
theorem c3_moisture (startPos sz : Vec2) (par : ℕ → StepParams) (n : ℕ)
    (hdt : ∀ k, 0 < (par k).dt ∧ (par k).dt ≤ 0.1)
    (hheld : HeldSubmerged (Potato.init startPos sz) par n)
    (hoil : ∀ k, (par k).oilT = 180) :
    ∀ k, k ≤ n →
      (potatoSeq (Potato.init startPos sz) par k).moistureContent ≤
        max 0.01 (0.79 - 0.01 * (partialSum (fun i => (par i).dt) k - 301)) := by
  intro k
  induction k with
  | zero =>
    intro _
    simp only [potatoSeq, partialSum]
    refine le_trans ?_ (le_max_right _ _)
    norm_num [Potato.init]
  | succ k ih =>
    intro hk
    have hkn : k ≤ n := Nat.le_of_succ_le hk
    obtain ⟨h20, hTle, hgap, hc0, hc1, hcrd, hm0, hm1, ht⟩ :=
      c3_main startPos sz par n hdt hheld hoil k hkn
    obtain ⟨h20s, hTles, hgaps, hc0s, hc1s, hcrds, hm0s, hm1s, hts⟩ :=
      c3_main startPos sz par n hdt hheld hoil (k + 1) hk
    by_cases hS1 : partialSum (fun i => (par i).dt) (k + 1) ≤ 301
    · refine le_trans hm1s (le_trans ?_ (le_max_right _ _))
      linarith
    · push_neg at hS1
      have hSk : (300 : ℝ) ≤ partialSum (fun i => (par i).dt) k := by
        have hd := (hdt k).2
        simp only [partialSum] at hS1
        linarith
      have hT172 : (172 : ℝ) ≤
          (potatoSeq (Potato.init startPos sz) par k).temperature := by
        have hEle : Real.exp (-(partialSum (fun i => (par i).dt) k / 80)) ≤
            Real.exp (-(3 : ℝ)) := by
          apply Real.exp_le_exp.mpr
          linarith
        have h160 : 160 * Real.exp (-(partialSum (fun i => (par i).dt) k / 80)) ≤
            160 * (1 / 20) := by
          have := mul_le_mul_of_nonneg_left (hEle.trans exp_neg_three_le)
            (by norm_num : (0 : ℝ) ≤ 160)
          linarith
        linarith
      obtain ⟨hheld1, hheld2⟩ := hheld k (Nat.lt_of_succ_le hk)
      have hsub : (potatoSeq (Potato.init startPos sz) par k).position.y >
          (par k).sy := by linarith
      obtain ⟨-, -, -, -, -, -, -, -, -, -, -, hmstr, -, -, -, -⟩ :=
        Potato.update_cook_facts (potatoSeq (Potato.init startPos sz) par k)
          ((par k).dt) 180 ((par k).sy) ((par k).od) ((par k).bb) hsub (hdt k).1.le
          (hdt k).2 h20 hTle hc0 hc1 hm0 hm1 ht
      have hstrong := hmstr hT172
      rw [potatoSeq_succ, hoil k]
      simp only [partialSum]
      refine le_trans hstrong ?_
      refine le_trans (max_le_max (le_refl (0.01 : ℝ))
        (sub_le_sub_right (ih hkn) (0.01 * (par k).dt))) ?_
      apply max_le (le_max_left _ _)
      rcases le_or_lt (0.79 - 0.01 * (partialSum (fun i => (par i).dt) k - 301)) 0.01
        with hc | hc
      · rw [max_eq_left hc]
        refine le_trans ?_ (le_max_left _ _)
        have := (hdt k).1
        linarith
      · rw [max_eq_right hc.le]
        exact le_max_of_le_right (le_of_eq (by ring))

theorem exp_ten_ge : (16000 : ℝ) ≤ Real.exp 10 := by
  have h2 : Real.exp (10 : ℝ) = (Real.exp 1) ^ 10 := by
    rw [← Real.exp_nat_mul]; norm_num
  have h1 : (2.7182818283 : ℝ) ^ 10 ≤ (Real.exp 1) ^ 10 :=
    pow_le_pow_left (by norm_num) (le_of_lt Real.exp_one_gt_d9) 10
  rw [h2]
  calc (16000 : ℝ) ≤ (2.7182818283 : ℝ) ^ 10 := by norm_num
    _ ≤ _ := h1

set_option maxHeartbeats 2000000 in
/-- C3: a fresh fry held continuously submerged in 180-degree oil for at
least 5000 accumulated simulated seconds, with per-step dt in the frame
range (0, 0.1], ends with temperature within 0.01 of 180, cookedness
exactly 1, crust thickness within 0.01 of 1, and density within 0.01 of
0.60. -/
theorem C3_fry_convergence (startPos sz : Vec2) (par : ℕ → StepParams) (n : ℕ)
    (hdt : ∀ k, 0 < (par k).dt ∧ (par k).dt ≤ 0.1)
    (hoil : ∀ k, (par k).oilT = 180)
    (hheld : HeldSubmerged (Potato.init startPos sz) par n)
    (hn : 1 ≤ n)
    (hS : 5000 ≤ partialSum (fun i => (par i).dt) n) :
    |(potatoSeq (Potato.init startPos sz) par n).temperature - 180| ≤ 0.01 ∧
    (potatoSeq (Potato.init startPos sz) par n).cookedness = 1 ∧
    |(potatoSeq (Potato.init startPos sz) par n).crustThickness - 1| ≤ 0.01 ∧
    |(potatoSeq (Potato.init startPos sz) par n).density - 0.6| ≤ 0.01 := by
  obtain ⟨m, rfl⟩ : ∃ m, n = m + 1 := ⟨n - 1, (Nat.succ_pred_eq_of_pos hn).symm⟩
  obtain ⟨h20n, hTlen, hgapn, hc0n, hc1n, hcrdn, hm0n, hm1n, htn⟩ :=
    c3_main startPos sz par (m + 1) hdt hheld hoil (m + 1) (le_refl (m + 1))
  have hexp10 : Real.exp (-(10 : ℝ)) ≤ 1 / 16000 := by
    rw [Real.exp_neg]
    have h3 := inv_le_inv_of_le (by norm_num : (0 : ℝ) < 16000) exp_ten_ge
    calc (Real.exp 10)⁻¹ ≤ (16000 : ℝ)⁻¹ := h3
      _ = 1 / 16000 := by norm_num
  have hsmall80 : Real.exp (-(partialSum (fun i => (par i).dt) (m + 1) / 80)) ≤
      1 / 16000 := by
    refine le_trans ?_ hexp10
    apply Real.exp_le_exp.mpr
    linarith
  have hsmall100 : Real.exp (-(partialSum (fun i => (par i).dt) (m + 1) / 100)) ≤
      1 / 16000 := by
    refine le_trans ?_ hexp10
    apply Real.exp_le_exp.mpr
    linarith
  have hgap001 : 180 - (potatoSeq (Potato.init startPos sz) par (m + 1)).temperature ≤
      0.01 := by
    have := mul_le_mul_of_nonneg_left hsmall80 (by norm_num : (0 : ℝ) ≤ 160)
    linarith
  have hcr001 : 1 - (potatoSeq (Potato.init startPos sz) par (m + 1)).crustThickness ≤
      0.01 := by
    linarith
  have hT170n : (170 : ℝ) ≤
      (potatoSeq (Potato.init startPos sz) par (m + 1)).temperature := by linarith
  have hmle := c3_moisture startPos sz par (m + 1) hdt hheld hoil (m + 1)
    (le_refl (m + 1))
  rw [max_eq_left (by linarith :
    (0.79 : ℝ) - 0.01 * (partialSum (fun i => (par i).dt) (m + 1) - 301) ≤ 0.01)]
    at hmle
  have hmeq : (potatoSeq (Potato.init startPos sz) par (m + 1)).moistureContent =
      0.01 := le_antisymm hmle hm0n
  obtain ⟨h20m, hTlem, hgapm, hc0m, hc1m, hcrdm, hm0m, hm1m, htm⟩ :=
    c3_main startPos sz par (m + 1) hdt hheld hoil m (Nat.le_succ m)
  obtain ⟨hheld1, hheld2⟩ := hheld m (Nat.lt_succ_self m)
  have hsub : (potatoSeq (Potato.init startPos sz) par m).position.y > (par m).sy := by
    linarith
  obtain ⟨-, -, -, -, -, -, -, -, -, -, -, -, hden, hcke, -, -⟩ :=
    Potato.update_cook_facts (potatoSeq (Potato.init startPos sz) par m)
      ((par m).dt) 180 ((par m).sy) ((par m).od) ((par m).bb) hsub (hdt m).1.le
      (hdt m).2 h20m hTlem hc0m hc1m hm0m hm1m htm
  have hstep : potatoSeq (Potato.init startPos sz) par (m + 1) =
      (potatoSeq (Potato.init startPos sz) par m).update ((par m).dt) 180
        ((par m).sy) ((par m).od) ((par m).bb) := by
    rw [potatoSeq_succ, hoil m]
  rw [hstep] at hT170n hmeq
  refine ⟨abs_le.mpr ⟨by linarith, by linarith⟩, ?_, abs_le.mpr ⟨by linarith, by linarith⟩,
    ?_⟩
  · rw [hstep, hcke]
    rw [if_neg (by rintro ⟨-, hlt⟩; linarith), if_pos hT170n]
  · rw [hstep, hden, hmeq]
    rw [ofClamp_eq_of_mem (by norm_num) (by norm_num)]
    exact abs_le.mpr ⟨by norm_num, by norm_num⟩

theorem partialSum_const (c : ℝ) : ∀ n : ℕ, partialSum (fun _ => c) n = c * n := by
  intro n
  induction n with
  | zero => simp [partialSum]
  | succ n ih =>
    simp only [partialSum]
    rw [ih]
    push_cast
    ring

theorem c3_witness_held : HeldSubmerged (Potato.init ⟨0, 0⟩ ⟨120, 20⟩)
    (fun _ => ⟨0.1, 180, -10000000, getOilDensity 180, 10000000⟩) 50000 := by
  intro k hk
  obtain ⟨hsz, hy1, hy2, -, -, -, -, -, -, -, -⟩ :=
    potatoSeq_const_inv (Potato.init ⟨0, 0⟩ ⟨120, 20⟩) 180
      (-10000000) (getOilDensity 180) 10000000 50000
      (by norm_num [Potato.init]) (by norm_num [Potato.init]) (by norm_num [Potato.init])
      (by norm_num [Potato.init]) (by norm_num [Potato.init]) (by norm_num [Potato.init])
      (by norm_num [Potato.init]) (by norm_num [Potato.init]) (by norm_num [Potato.init])
      k hk.le
  have hy0 : (Potato.init (⟨0, 0⟩ : Vec2) ⟨120, 20⟩).position.y = 0 := rfl
  rw [hy0] at hy1 hy2
  have hk5 : (k : ℝ) ≤ 50000 := by exact_mod_cast hk.le
  constructor
  · show (-10000000 : ℝ) + 20 ≤
      (potatoSeq (Potato.init ⟨0, 0⟩ ⟨120, 20⟩)
        (fun _ => ⟨0.1, 180, -10000000, getOilDensity 180, 10000000⟩) k).position.y
    linarith
  · rw [hsz]
    show (potatoSeq (Potato.init ⟨0, 0⟩ ⟨120, 20⟩)
        (fun _ => ⟨0.1, 180, -10000000, getOilDensity 180, 10000000⟩) k).position.y ≤
      (10000000 : ℝ) - (Potato.init (⟨0, 0⟩ : Vec2) ⟨120, 20⟩).size.y / 2
    have hszy : (Potato.init (⟨0, 0⟩ : Vec2) ⟨120, 20⟩).size.y = 20 := rfl
    rw [hszy]
    linarith

/-- Witness for C3 on a concrete trajectory: 50000 steps of a tenth of a
second each in 180-degree oil inside a very tall oil column. -/
theorem C3_fry_convergence_witness :
    (potatoSeq (Potato.init ⟨0, 0⟩ ⟨120, 20⟩)
        (fun _ => ⟨0.1, 180, -10000000, getOilDensity 180, 10000000⟩)
        50000).cookedness = 1 ∧
    |(potatoSeq (Potato.init ⟨0, 0⟩ ⟨120, 20⟩)
        (fun _ => ⟨0.1, 180, -10000000, getOilDensity 180, 10000000⟩)
        50000).temperature - 180| ≤ 0.01 := by
  have hS : (5000 : ℝ) ≤ partialSum
      (fun i => ((fun _ : ℕ => (⟨0.1, 180, -10000000, getOilDensity 180,
        10000000⟩ : StepParams)) i).dt) 50000 := by
    have he : (fun i : ℕ => ((fun _ : ℕ => (⟨0.1, 180, -10000000, getOilDensity 180,
        10000000⟩ : StepParams)) i).dt) = fun _ : ℕ => (0.1 : ℝ) := rfl
    rw [he, partialSum_const]
    norm_num
  have h := C3_fry_convergence ⟨0, 0⟩ ⟨120, 20⟩
    (fun _ => ⟨0.1, 180, -10000000, getOilDensity 180, 10000000⟩) 50000
    (fun k => ⟨by norm_num, by norm_num⟩) (fun k => rfl) c3_witness_held
    (by norm_num) hS
  exact ⟨h.2.1, h.1⟩

end DeepFry
